import Mathlib

/-!
Verification of the STIG configuration-compliance engine of
NetNynjaEnterprise (apps/stig): a shallow embedding in Lean 4 of the
rule evaluator (`services/config_checker.py`), the XCCDF extractor
(`library/parser.py`), the pfSense configuration parser
(`collectors/config_analyzer.py`), the compliance aggregator and the
audit-job operations (`services/audit.py`, `db/repository.py`,
`api/routes.py`), together with theorems settling the frozen claims
about these components.

External libraries (the `re` regex engine, `defusedxml`'s
`fromstring`, the Juniper analyzer module that is not part of the
evaluated sources) are modelled as explicit oracle arguments or
outcome values, so every theorem quantifies over their behaviour
where the code consumes them.
-/

set_option maxRecDepth 4000

/-! ## Basic enums (models/audit.py, models/target.py, models/definition.py) -/

/-- `CheckStatus` from `models/audit.py`: the five verdicts. -/
inductive CheckStatus where
  | PASS
  | FAIL
  | NOT_APPLICABLE
  | NOT_REVIEWED
  | ERROR
deriving DecidableEq, Repr

/-- Severity enum (`STIGSeverity` in `models/definition.py`, referenced as
HIGH/MEDIUM/LOW with string values "high"/"medium"/"low" throughout the
checker and the spec). -/
inductive STIGSeverity where
  | HIGH
  | MEDIUM
  | LOW
deriving DecidableEq, Repr

/-- The string value of a severity member, as used by `.value`. -/
def STIGSeverity.val : STIGSeverity → String
  | .HIGH => "high"
  | .MEDIUM => "medium"
  | .LOW => "low"

/-- `AuditStatus` from `models/audit.py`. -/
inductive AuditStatus where
  | PENDING
  | RUNNING
  | COMPLETED
  | FAILED
  | CANCELLED
deriving DecidableEq, Repr

/-- Platform members referenced by the checker and the parser registry
(`models/target.py` via usage: the eight platforms that appear in
`PLATFORM_CHECKS` and `PARSERS`). -/
inductive Platform where
  | ARISTA_EOS
  | HPE_ARUBA_CX
  | JUNIPER_JUNOS
  | JUNIPER_SRX
  | PFSENSE
  | MELLANOX
  | REDHAT
  | LINUX
deriving DecidableEq, Repr

/-! ## Python-value helpers

The checker stores heterogeneous values (strings, booleans, lists of
strings) in the `ssh_config`/`snmp_config`/`aaa_config` dicts of a
`ParsedConfig` and interpolates them with `str()`/truthiness. -/

/-- A Python value as stored in the config dicts by the parsers (`nil`
models Python `None`, which the pfSense parser can store for missing
XML text nodes). -/
inductive PyVal where
  | str (s : String)
  | bool (b : Bool)
  | nil
  | list (l : List PyVal)

mutual

/-- Boolean equality on Python values. -/
def PyVal.beq : PyVal → PyVal → Bool
  | .str a, .str b => a == b
  | .bool a, .bool b => a == b
  | .nil, .nil => true
  | .list a, .list b => pyValListBeq a b
  | _, _ => false

/-- Boolean equality on Python lists. -/
def pyValListBeq : List PyVal → List PyVal → Bool
  | [], [] => true
  | a :: as, b :: bs => PyVal.beq a b && pyValListBeq as bs
  | _, _ => false

end

instance : BEq PyVal := ⟨PyVal.beq⟩

/-- Python truthiness of such a value. -/
def PyVal.truthy : PyVal → Bool
  | .str s => !s.isEmpty
  | .bool b => b
  | .nil => false
  | .list l => !l.isEmpty

mutual

/-- Python `repr()` of such a value, as it appears inside the `str()` of a
containing dict or list (strings quoted; assumes the strings hold no
quote or escape characters, which is the case for all inputs in this
file). -/
def PyVal.pyRepr : PyVal → String
  | .str s => "'" ++ s ++ "'"
  | .bool b => if b then "True" else "False"
  | .nil => "None"
  | .list l => "[" ++ String.intercalate ", " (pyReprList l) ++ "]"

/-- `repr` of each element of a Python list. -/
def pyReprList : List PyVal → List String
  | [] => []
  | v :: vs => PyVal.pyRepr v :: pyReprList vs

end

/-- Python `str()` of such a value (lists render their elements with
`repr`). -/
def PyVal.pyStr : PyVal → String
  | .str s => s
  | .bool b => if b then "True" else "False"
  | .nil => "None"
  | .list l => "[" ++ String.intercalate ", " (pyReprList l) ++ "]"

/-- A Python dict with string keys and `PyVal` values (assoc list, unique
keys by construction; insertion order preserved as Python does). -/
abbrev PyDict : Type := List (String × PyVal)

/-- `d.get(k)` on a Python dict: `None` becomes `none`. -/
def PyDict.get (d : PyDict) (k : String) : Option PyVal :=
  (List.find? (fun p => p.1 == k) d).map (fun p => p.2)

/-- Python truthiness of a dict: non-empty. -/
def PyDict.truthy (d : PyDict) : Bool :=
  !(List.isEmpty d)

/-- Python `str()` of a dict, e.g. `{'a': 'b', 'c': ['d', 'e']}`. -/
def PyDict.pyStr (d : PyDict) : String :=
  "\x7b" ++
    String.intercalate ", "
      (List.map (fun p => "'" ++ p.1 ++ "': " ++ PyVal.pyRepr p.2) d) ++
  "\x7d"

/-- Python `repr` of a list value, for f-string interpolation. -/
def pyListRepr (l : List PyVal) : String :=
  "[" ++ String.intercalate ", " (pyReprList l) ++ "]"

/-- Infix test on character lists (an empty needle is always an infix). -/
def charsInfix (needle : List Char) : List Char → Bool
  | [] => needle.isEmpty
  | c :: cs => List.isPrefixOf needle (c :: cs) || charsInfix needle cs

/-- Python `needle in hay` on strings: substring containment. -/
def pyIn (needle hay : String) : Bool :=
  charsInfix needle.toList hay.toList

/-- Python `s.lower()` (ASCII model; character-list implementation so
that terms reduce definitionally). -/
def pyLower (s : String) : String :=
  String.mk (s.toList.map Char.toLower)

/-- Python `s[:n]` on characters. -/
def pyTake (s : String) (n : Nat) : String :=
  String.mk (s.toList.take n)

/-- Python `s.startswith(pre)`. -/
def pyStartsWith (s pre : String) : Bool :=
  List.isPrefixOf pre.toList s.toList

/-- Python `s.endswith(suf)`. -/
def pyEndsWith (s suf : String) : Bool :=
  List.isSuffixOf suf.toList s.toList

/-- ASCII whitespace as stripped by Python `int()`. -/
def isPyWs (c : Char) : Bool :=
  c == ' ' || c == '\t' || c == '\n' || c == '\r' || c == '\x0b' || c == '\x0c'

/-- Digit tail of a Python integer literal: digits with single
underscores allowed between digits. -/
def pyDigitsAux : List Char → Nat → Option Nat
  | [], acc => some acc
  | '_' :: c :: cs, acc =>
      if c.isDigit then pyDigitsAux cs (acc * 10 + (c.toNat - 48)) else none
  | c :: cs, acc =>
      if c.isDigit then pyDigitsAux cs (acc * 10 + (c.toNat - 48)) else none

/-- Parse a non-empty digit run (first char must be a digit). -/
def pyParseNat : List Char → Option Nat
  | [] => none
  | c :: cs => if c.isDigit then pyDigitsAux cs (c.toNat - 48) else none

/-- Model of Python `int(s)` on ASCII text: optional surrounding
whitespace, optional sign, decimal digits (underscores between digits
allowed); `none` models the `ValueError`. -/
def pyInt? (s : String) : Option Int :=
  let cs := ((s.toList.dropWhile isPyWs).reverse.dropWhile isPyWs).reverse
  match cs with
  | '-' :: rest => (pyParseNat rest).map (fun n => -(n : Int))
  | '+' :: rest => (pyParseNat rest).map (fun n => (n : Int))
  | rest => (pyParseNat rest).map (fun n => (n : Int))

/-- Truthiness of an optional string (Python `if x:` where `x` is
`str | None`). -/
def optStrTruthy : Option String → Bool
  | none => false
  | some s => !s.isEmpty

/-! ## ParsedConfig (collectors/config_analyzer.py lines 55-77) -/

/-- One interface entry as built by the parsers (`{"name": ..., "config":
[...]}`, with the optional `ip`/`descr` keys the pfSense parser adds;
those two may hold a `None` text node). -/
structure IfaceEntry where
  name : String
  config : List String
  ip : Option (Option String) := none
  description : Option (Option String) := none
deriving DecidableEq, Repr

/-- One user entry (`{"name": ..., "config": ...}`; the pfSense parser can
store a `None` name when the `<name>` element has no text). -/
structure UserEntry where
  name : Option String
  config : String
deriving DecidableEq, Repr

/-- `ParsedConfig` from `collectors/config_analyzer.py`: the normalized
configuration model. List/dict fields default to empty, matching the
`field(default_factory=...)` dataclass defaults; `acls` entries are the
tag→text dicts the pfSense parser collects. -/
structure ParsedConfig where
  platform : Platform
  hostname : Option String := none
  version : Option String := none
  raw_content : String := ""
  sections : PyDict := []
  settings : List (String × String) := []
  interfaces : List IfaceEntry := []
  users : List UserEntry := []
  acls : List (List (String × Option String)) := []
  routing : PyDict := []
  services : List (String × Bool) := []
  ntp_servers : List String := []
  dns_servers : List String := []
  syslog_servers : List String := []
  snmp_config : PyDict := []
  aaa_config : PyDict := []
  ssh_config : PyDict := []
  banner : Option String := none

/-- `config.settings.get(key)` (string-valued settings, as the RedHat
parser stores them). -/
def ParsedConfig.getSetting (c : ParsedConfig) (k : String) : Option String :=
  (List.find? (fun p => p.1 == k) c.settings).map (fun p => p.2)

/-! ## ConfigCheckRule and the built-in platform rule tables
(services/config_checker.py lines 35-433) -/

/-- `ConfigCheckRule` dataclass from `services/config_checker.py`. -/
structure ConfigCheckRule where
  rule_id : String
  vuln_id : String
  title : String
  severity : STIGSeverity
  check_type : String
  check_key : Option String := none
  expected_value : Option String := none
  pattern : Option String := none
  negate : Bool := false
  description : String := ""
deriving DecidableEq, Repr

/-- `ARISTA_CHECKS` table. -/
def ARISTA_CHECKS : List ConfigCheckRule := [
  { rule_id := "ARST-L2-000010", vuln_id := "V-215845",
    title := "Arista MLS must enforce approved authorizations",
    severity := .HIGH, check_type := "aaa",
    check_key := some "enabled", expected_value := some "true" },
  { rule_id := "ARST-L2-000020", vuln_id := "V-215846",
    title := "Arista MLS must authenticate SNMP messages using a FIPS-validated hash",
    severity := .HIGH, check_type := "snmp",
    check_key := some "version", expected_value := some "v3" },
  { rule_id := "ARST-L2-000030", vuln_id := "V-215847",
    title := "Arista MLS must have STP enabled",
    severity := .MEDIUM, check_type := "pattern",
    pattern := some "spanning-tree mode" },
  { rule_id := "ARST-L2-000040", vuln_id := "V-215848",
    title := "Arista MLS must have BPDU guard enabled",
    severity := .MEDIUM, check_type := "pattern",
    pattern := some "spanning-tree.*(bpduguard|portfast bpduguard)" },
  { rule_id := "ARST-L2-000050", vuln_id := "V-215849",
    title := "Arista MLS must have Root Guard enabled",
    severity := .MEDIUM, check_type := "pattern",
    pattern := some "spanning-tree guard root" },
  { rule_id := "ARST-L2-000060", vuln_id := "V-215850",
    title := "Arista MLS must not have CDP enabled on external interfaces",
    severity := .LOW, check_type := "pattern",
    pattern := some "no cdp enable|no lldp transmit" },
  { rule_id := "ARST-ND-000010", vuln_id := "V-215851",
    title := "Arista must limit SSH sessions",
    severity := .MEDIUM, check_type := "ssh",
    check_key := some "enabled", expected_value := some "true" },
  { rule_id := "ARST-ND-000020", vuln_id := "V-215852",
    title := "Arista must configure NTP",
    severity := .MEDIUM, check_type := "ntp",
    check_key := some "configured", expected_value := some "true" },
  { rule_id := "ARST-ND-000030", vuln_id := "V-215853",
    title := "Arista must configure logging",
    severity := .MEDIUM, check_type := "syslog",
    check_key := some "configured", expected_value := some "true" },
  { rule_id := "ARST-ND-000040", vuln_id := "V-215854",
    title := "Arista must display a login banner",
    severity := .MEDIUM, check_type := "banner",
    check_key := some "configured", expected_value := some "true" }]

/-- `HPE_ARUBA_CX_CHECKS` table. -/
def HPE_ARUBA_CX_CHECKS : List ConfigCheckRule := [
  { rule_id := "ARBA-CX-000010", vuln_id := "V-260001",
    title := "Aruba CX must enforce AAA authentication",
    severity := .HIGH, check_type := "aaa",
    check_key := some "enabled", expected_value := some "true" },
  { rule_id := "ARBA-CX-000020", vuln_id := "V-260002",
    title := "Aruba CX must use SNMPv3 with authentication",
    severity := .HIGH, check_type := "snmp",
    check_key := some "version", expected_value := some "v3" },
  { rule_id := "ARBA-CX-000030", vuln_id := "V-260003",
    title := "Aruba CX must configure SSH for management",
    severity := .MEDIUM, check_type := "ssh",
    check_key := some "server_enabled", expected_value := some "true" },
  { rule_id := "ARBA-CX-000040", vuln_id := "V-260004",
    title := "Aruba CX must configure NTP",
    severity := .MEDIUM, check_type := "ntp",
    check_key := some "configured", expected_value := some "true" },
  { rule_id := "ARBA-CX-000050", vuln_id := "V-260005",
    title := "Aruba CX must configure remote logging",
    severity := .MEDIUM, check_type := "syslog",
    check_key := some "configured", expected_value := some "true" },
  { rule_id := "ARBA-CX-000060", vuln_id := "V-260006",
    title := "Aruba CX must display a DoD-approved banner",
    severity := .MEDIUM, check_type := "banner",
    check_key := some "configured", expected_value := some "true" },
  { rule_id := "ARBA-CX-000070", vuln_id := "V-260007",
    title := "Aruba CX must disable unnecessary services",
    severity := .LOW, check_type := "pattern",
    pattern := some "no telnet-server" }]

/-- `JUNIPER_CHECKS` table. -/
def JUNIPER_CHECKS : List ConfigCheckRule := [
  { rule_id := "JUSX-AG-000010", vuln_id := "V-251010",
    title := "Juniper must authenticate NTP sources",
    severity := .MEDIUM, check_type := "ntp",
    check_key := some "configured", expected_value := some "true" },
  { rule_id := "JUSX-AG-000020", vuln_id := "V-251011",
    title := "Juniper must use SSH version 2",
    severity := .HIGH, check_type := "ssh",
    check_key := some "protocol_version", expected_value := some "v2" },
  { rule_id := "JUSX-AG-000030", vuln_id := "V-251012",
    title := "Juniper must disable root login",
    severity := .HIGH, check_type := "pattern",
    pattern := some "root-login\\s+deny" },
  { rule_id := "JUSX-AG-000040", vuln_id := "V-251013",
    title := "Juniper must configure system logging",
    severity := .MEDIUM, check_type := "syslog",
    check_key := some "configured", expected_value := some "true" },
  { rule_id := "JUSX-AG-000050", vuln_id := "V-251014",
    title := "Juniper must protect against password brute force",
    severity := .MEDIUM, check_type := "pattern",
    pattern := some "login.*(retry|lockout)" },
  { rule_id := "JUSX-AG-000060", vuln_id := "V-251015",
    title := "Juniper must implement replay-resistant authentication",
    severity := .HIGH, check_type := "pattern",
    pattern := some "authentication-order.*(radius|tacplus)" }]

/-- `PFSENSE_CHECKS` table. -/
def PFSENSE_CHECKS : List ConfigCheckRule := [
  { rule_id := "PFSS-FW-000010", vuln_id := "V-270001",
    title := "pfSense must enforce access restrictions",
    severity := .HIGH, check_type := "pattern",
    pattern := some "<rule>.*<type>pass</type>.*</rule>" },
  { rule_id := "PFSS-FW-000020", vuln_id := "V-270002",
    title := "pfSense must configure SSH securely",
    severity := .HIGH, check_type := "ssh",
    check_key := some "enabled", expected_value := some "true" },
  { rule_id := "PFSS-FW-000030", vuln_id := "V-270003",
    title := "pfSense must configure NTP",
    severity := .MEDIUM, check_type := "ntp",
    check_key := some "configured", expected_value := some "true" },
  { rule_id := "PFSS-FW-000040", vuln_id := "V-270004",
    title := "pfSense must configure remote syslog",
    severity := .MEDIUM, check_type := "syslog",
    check_key := some "configured", expected_value := some "true" },
  { rule_id := "PFSS-FW-000050", vuln_id := "V-270005",
    title := "pfSense must use secure DNS servers",
    severity := .MEDIUM, check_type := "dns",
    check_key := some "configured", expected_value := some "true" }]

/-- `MELLANOX_CHECKS` table. -/
def MELLANOX_CHECKS : List ConfigCheckRule := [
  { rule_id := "MLNX-SW-000010", vuln_id := "V-280001",
    title := "Mellanox must enable SSH server",
    severity := .HIGH, check_type := "ssh",
    check_key := some "server_enabled", expected_value := some "true" },
  { rule_id := "MLNX-SW-000020", vuln_id := "V-280002",
    title := "Mellanox must configure AAA",
    severity := .HIGH, check_type := "aaa",
    check_key := some "enabled", expected_value := some "true" },
  { rule_id := "MLNX-SW-000030", vuln_id := "V-280003",
    title := "Mellanox must configure NTP",
    severity := .MEDIUM, check_type := "ntp",
    check_key := some "configured", expected_value := some "true" },
  { rule_id := "MLNX-SW-000040", vuln_id := "V-280004",
    title := "Mellanox must configure syslog",
    severity := .MEDIUM, check_type := "syslog",
    check_key := some "configured", expected_value := some "true" }]

/-- `REDHAT_CHECKS` table. -/
def REDHAT_CHECKS : List ConfigCheckRule := [
  { rule_id := "RHEL-09-211010", vuln_id := "V-257777",
    title := "RHEL 9 must enable FIPS mode",
    severity := .HIGH, check_type := "setting",
    check_key := some "fips_enabled", expected_value := some "1" },
  { rule_id := "RHEL-09-211015", vuln_id := "V-257778",
    title := "RHEL 9 must implement DOD-approved TLS encryption",
    severity := .HIGH, check_type := "setting",
    check_key := some "crypto_policy", expected_value := some "FIPS" },
  { rule_id := "RHEL-09-212010", vuln_id := "V-257779",
    title := "RHEL 9 must enforce SELinux",
    severity := .HIGH, check_type := "setting",
    check_key := some "SELINUX", expected_value := some "enforcing" },
  { rule_id := "RHEL-09-411010", vuln_id := "V-257780",
    title := "RHEL 9 must set password maximum lifetime",
    severity := .MEDIUM, check_type := "setting",
    check_key := some "PASS_MAX_DAYS", expected_value := some "60",
    description := "PASS_MAX_DAYS must be 60 or less" },
  { rule_id := "RHEL-09-411015", vuln_id := "V-257781",
    title := "RHEL 9 must set password minimum lifetime",
    severity := .MEDIUM, check_type := "setting",
    check_key := some "PASS_MIN_DAYS", expected_value := some "1",
    description := "PASS_MIN_DAYS must be 1 or greater" },
  { rule_id := "RHEL-09-255010", vuln_id := "V-257782",
    title := "RHEL 9 must use SSHv2",
    severity := .HIGH, check_type := "ssh",
    check_key := some "Protocol", expected_value := some "2" },
  { rule_id := "RHEL-09-255015", vuln_id := "V-257783",
    title := "RHEL 9 must disable SSH root login",
    severity := .HIGH, check_type := "ssh",
    check_key := some "PermitRootLogin", expected_value := some "no" },
  { rule_id := "RHEL-09-255020", vuln_id := "V-257784",
    title := "RHEL 9 must disable SSH password authentication",
    severity := .MEDIUM, check_type := "ssh",
    check_key := some "PasswordAuthentication", expected_value := some "no" }]

/-- `PLATFORM_CHECKS` mapping (every listed platform key; the dict's
`.get(platform, [])` default is realized by totality over the enum). -/
def PLATFORM_CHECKS : Platform → List ConfigCheckRule
  | .ARISTA_EOS => ARISTA_CHECKS
  | .HPE_ARUBA_CX => HPE_ARUBA_CX_CHECKS
  | .JUNIPER_JUNOS => JUNIPER_CHECKS
  | .JUNIPER_SRX => JUNIPER_CHECKS
  | .PFSENSE => PFSENSE_CHECKS
  | .MELLANOX => MELLANOX_CHECKS
  | .REDHAT => REDHAT_CHECKS
  | .LINUX => REDHAT_CHECKS

/-! ## Regex oracle

`_check_pattern` and the generic XCCDF fallback hand patterns to Python's
`re` engine.  The engine is external, so a search is modelled as an
oracle argument producing one of three outcomes; `invalid` carries the
`re.error` message.  (The two call sites compile with `IGNORECASE`, one
additionally with `MULTILINE`; the oracle abstracts the whole call.) -/

/-- Outcome of `re.search(pattern, text)`: compile error, no match, or
first match text (`match.group()`). -/
inductive ReResult where
  | invalid (msg : String)
  | noMatch
  | found (m : String)
deriving DecidableEq, Repr

/-- The regex oracle: `(pattern, text) ↦ outcome`. -/
def RegexO : Type := String → String → ReResult

/-! ## AuditResultCreate (models/audit.py lines 68-83)

`AuditResultBase.rule_id` is declared `Field(min_length=1,
max_length=100)`, so constructing a result with an out-of-range
`rule_id` raises a pydantic `ValidationError`; the smart constructor
returns `Except` accordingly. -/

/-- `AuditResultCreate` pydantic model (comments always default `None`). -/
structure AuditResultCreate where
  job_id : String
  rule_id : String
  title : Option String
  severity : Option STIGSeverity
  status : CheckStatus
  finding_details : Option String
  comments : Option String
deriving DecidableEq, Repr

/-- Validated construction of an `AuditResultCreate`; `.error` models the
pydantic `ValidationError` on the `rule_id` length bounds. -/
def mkAuditResult (job_id rule_id : String) (title : Option String)
    (sev : Option STIGSeverity) (st : CheckStatus) (fd : Option String) :
    Except String AuditResultCreate :=
  if 1 ≤ rule_id.length ∧ rule_id.length ≤ 100 then
    .ok ⟨job_id, rule_id, title, sev, st, fd, none⟩
  else
    .error ("ValidationError: rule_id must have 1..100 characters, got '" ++ rule_id ++ "'")

/-- The result-accumulation loop shared by the three evaluation batches
(`for rule in rules: results.append(...)`): collects one value per
element; a raised exception (`.error`) aborts the loop and propagates,
exactly as in Python. -/
def collectE {α β : Type} (f : α → Except String β) : List α → Except String (List β)
  | [] => .ok []
  | a :: as =>
    match f a with
    | .ok b =>
      match collectE f as with
      | .ok bs => .ok (b :: bs)
      | .error e => .error e
    | .error e => .error e

/-! ## Typed built-in checks (services/config_checker.py lines 1063-1230) -/

/-- `_check_setting`: exact or numeric-threshold comparison against
`config.settings`. -/
def check_setting (c : ConfigCheckRule) (config : ParsedConfig) :
    CheckStatus × String :=
  if !(optStrTruthy c.check_key) then
    (.ERROR, "No check key specified")
  else
    let key := c.check_key.getD ""
    match config.getSetting key with
    | none => (.FAIL, "Setting '" ++ key ++ "' not found in configuration")
    | some actual =>
      if optStrTruthy c.expected_value then
        let expected := c.expected_value.getD ""
        if key == "PASS_MAX_DAYS" then
          match pyInt? actual, pyInt? expected with
          | some a, some e =>
            if a ≤ e then
              (.PASS, "PASS_MAX_DAYS is " ++ actual ++ " (expected <= " ++ expected ++ ")")
            else
              (.FAIL, "PASS_MAX_DAYS is " ++ actual ++ " (expected <= " ++ expected ++ ")")
          | _, _ => (.ERROR, "Invalid numeric value: " ++ actual)
        else if key == "PASS_MIN_DAYS" then
          match pyInt? actual, pyInt? expected with
          | some a, some e =>
            if a ≥ e then
              (.PASS, "PASS_MIN_DAYS is " ++ actual ++ " (expected >= " ++ expected ++ ")")
            else
              (.FAIL, "PASS_MIN_DAYS is " ++ actual ++ " (expected >= " ++ expected ++ ")")
          | _, _ => (.ERROR, "Invalid numeric value: " ++ actual)
        else if pyLower actual == pyLower expected then
          (.PASS, "Setting '" ++ key ++ "' is '" ++ actual ++ "' (expected: " ++ expected ++ ")")
        else
          (.FAIL, "Setting '" ++ key ++ "' is '" ++ actual ++ "' (expected: " ++ expected ++ ")")
      else
        (.PASS, "Setting '" ++ key ++ "' is present: " ++ actual)

/-- `_check_pattern`: regex search over the raw configuration, with the
`negate` flag meaning "must NOT match". -/
def check_pattern (re : RegexO) (c : ConfigCheckRule) (config : ParsedConfig) :
    CheckStatus × String :=
  if !(optStrTruthy c.pattern) then
    (.ERROR, "No pattern specified")
  else
    let p := c.pattern.getD ""
    match re p config.raw_content with
    | .invalid msg => (.ERROR, "Invalid regex pattern: " ++ msg)
    | .noMatch =>
      if c.negate then (.PASS, "Pattern '" ++ p ++ "' not found (as expected)")
      else (.FAIL, "Pattern '" ++ p ++ "' not found in configuration")
    | .found m =>
      if c.negate then (.FAIL, "Pattern '" ++ p ++ "' found (should NOT be present)")
      else (.PASS, "Pattern '" ++ p ++ "' found: " ++ m)

/-- Truthiness of `d.get(k)` (Python `if d.get(k):`). -/
def PyDict.getTruthy (d : PyDict) (k : String) : Bool :=
  ((d.get k).map PyVal.truthy).getD false

/-- `_check_ssh`. -/
def check_ssh (c : ConfigCheckRule) (config : ParsedConfig) :
    CheckStatus × String :=
  if !(optStrTruthy c.check_key) then
    (.ERROR, "No check key specified for SSH check")
  else
    let key := c.check_key.getD ""
    let ssh_config := config.ssh_config
    if key == "enabled" then
      if ssh_config.getTruthy "enabled" || ssh_config.getTruthy "server_enabled" then
        (.PASS, "SSH is enabled")
      else (.FAIL, "SSH is not enabled")
    else if key == "server_enabled" then
      if ssh_config.getTruthy "server_enabled" then
        (.PASS, "SSH server is enabled")
      else (.FAIL, "SSH server is not enabled")
    else
      match ssh_config.get key with
      | none => (.FAIL, "SSH setting '" ++ key ++ "' not configured")
      | some actual =>
        if optStrTruthy c.expected_value then
          let expected := c.expected_value.getD ""
          if pyLower actual.pyStr == pyLower expected then
            (.PASS, "SSH " ++ key ++ " is '" ++ actual.pyStr ++ "'")
          else
            (.FAIL, "SSH " ++ key ++ " is '" ++ actual.pyStr ++ "' (expected: " ++ expected ++ ")")
        else
          (.PASS, "SSH " ++ key ++ " is configured: " ++ actual.pyStr)

/-- `_check_ntp`. -/
def check_ntp (config : ParsedConfig) : CheckStatus × String :=
  if !config.ntp_servers.isEmpty then
    (.PASS, "NTP configured with servers: " ++ String.intercalate ", " config.ntp_servers)
  else (.FAIL, "No NTP servers configured")

/-- `_check_syslog`. -/
def check_syslog (config : ParsedConfig) : CheckStatus × String :=
  if !config.syslog_servers.isEmpty then
    (.PASS, "Syslog configured with servers: " ++ String.intercalate ", " config.syslog_servers)
  else (.FAIL, "No syslog servers configured")

/-- The `communities` value of the SNMP dict (`snmp.get("communities",
[])`; the parsers only ever store a list there). -/
def PyDict.communities (d : PyDict) : List PyVal :=
  match d.get "communities" with
  | some (.list l) => l
  | _ => []

/-- `_check_snmp`. -/
def check_snmp (c : ConfigCheckRule) (config : ParsedConfig) :
    CheckStatus × String :=
  let snmp := config.snmp_config
  if !snmp.truthy then
    (.FAIL, "SNMP is not configured")
  else if c.check_key == some "version" && c.expected_value == some "v3" then
    if pyIn "v3" (pyLower snmp.pyStr) || snmp.get "version" == some (.str "3") then
      (.PASS, "SNMPv3 is configured")
    else
      let communities := snmp.communities
      if !communities.isEmpty then
        (.FAIL, "Using SNMP community strings (v1/v2c): " ++ pyListRepr communities ++ ". SNMPv3 required.")
      else (.FAIL, "SNMPv3 not detected")
  else
    (.PASS, "SNMP is configured: " ++ snmp.pyStr)

/-- `_check_aaa`. -/
def check_aaa (config : ParsedConfig) : CheckStatus × String :=
  let aaa := config.aaa_config
  if aaa.getTruthy "enabled" then
    (.PASS, "AAA is enabled: " ++ aaa.pyStr)
  else if aaa.truthy then
    (.PASS, "AAA configuration found: " ++ aaa.pyStr)
  else
    (.FAIL, "AAA is not configured")

/-- `_check_banner`. -/
def check_banner (config : ParsedConfig) : CheckStatus × String :=
  if optStrTruthy config.banner then
    (.PASS, "Login banner configured: " ++ pyTake (config.banner.getD "") 100 ++ "...")
  else (.FAIL, "No login banner configured")

/-- `_check_dns`. -/
def check_dns (config : ParsedConfig) : CheckStatus × String :=
  if !config.dns_servers.isEmpty then
    (.PASS, "DNS configured with servers: " ++ String.intercalate ", " config.dns_servers)
  else (.FAIL, "No DNS servers configured")

/-- The dispatch inside `_run_check`'s `try` block (lines 1027-1048). -/
def run_check_body (re : RegexO) (c : ConfigCheckRule) (config : ParsedConfig) :
    CheckStatus × String :=
  if c.check_type == "setting" then check_setting c config
  else if c.check_type == "pattern" then check_pattern re c config
  else if c.check_type == "ssh" then check_ssh c config
  else if c.check_type == "ntp" then check_ntp config
  else if c.check_type == "syslog" then check_syslog config
  else if c.check_type == "snmp" then check_snmp c config
  else if c.check_type == "aaa" then check_aaa config
  else if c.check_type == "banner" then check_banner config
  else if c.check_type == "dns" then check_dns config
  else (.NOT_REVIEWED, "Unknown check type: " ++ c.check_type)

/-- `_run_check` given the outcome of its `try` block: an exception in the
block is caught and becomes an ERROR result ("Error during check: ...");
the result record is then constructed (pydantic validation applies). -/
def run_check_with (c : ConfigCheckRule) (job_id : String)
    (body : Except String (CheckStatus × String)) :
    Except String AuditResultCreate :=
  let r := match body with
    | .ok r => r
    | .error msg => (CheckStatus.ERROR, "Error during check: " ++ msg)
  mkAuditResult job_id c.rule_id (some c.title) (some c.severity) r.1 (some r.2)

/-- `_run_check`: the embedded `try` body is total, so it is passed as a
successful outcome. -/
def run_check (re : RegexO) (c : ConfigCheckRule) (config : ParsedConfig)
    (job_id : String) : Except String AuditResultCreate :=
  run_check_with c job_id (.ok (run_check_body re c config))

/-- The built-in check loop of `analyze_config` (lines 515-517): one
result per check; a construction failure propagates like the Python
exception would. -/
def run_builtin_checks (re : RegexO) (checks : List ConfigCheckRule)
    (config : ParsedConfig) (job_id : String) :
    Except String (List AuditResultCreate) :=
  collectE (fun c => run_check re c config job_id) checks

/-! ## `_extract_ssh_checks` (lines 956-986)

The ten fixed patterns have the shape `Key\s+(group)` and are applied
with `re.search(..., re.IGNORECASE)`.  They are executed here by a small
direct matcher: at each start position the key is matched
case-insensitively, then one-or-more whitespace, then the group; the
first matching position wins, exactly as `re.search` behaves on these
patterns (no backtracking is possible since none of the groups can match
whitespace). -/

/-- Case-insensitive literal prefix match, returning the rest of the
input (the needle is given lowercased). -/
def ciAfter : List Char → List Char → Option (List Char)
  | [], hay => some hay
  | _, [] => none
  | n :: ns, h :: hs => if h.toLower == n then ciAfter ns hs else none

/-- Case-insensitive literal prefix match, returning the matched source
characters and the rest. -/
def ciCapture : List Char → List Char → Option (String × List Char) :=
  fun needle hay =>
    match ciAfter needle hay with
    | none => none
    | some rest => some (String.mk (hay.take needle.length), rest)

/-- The capture-group shapes occurring in the ssh-settings patterns. -/
inductive SshGroup where
  | noyes
  | digit
  | digits
  | wordy
deriving DecidableEq, Repr

/-- `\w` of Python's `re` on ASCII. -/
def isReWord (c : Char) : Bool :=
  c.isAlphanum || c == '_'

/-- Match one capture group at the current position. -/
def matchGroup : SshGroup → List Char → Option String
  | .noyes, hay =>
    (match ciCapture ['n', 'o'] hay with
     | some (capd, _) => some capd
     | none => (ciCapture ['y', 'e', 's'] hay).map (fun p => p.1))
  | .digit, hay =>
    match hay with
    | c :: _ => if c.isDigit then some (String.mk [c]) else none
    | [] => none
  | .digits, hay =>
    let run := hay.takeWhile Char.isDigit
    if run.isEmpty then none else some (String.mk run)
  | .wordy, hay =>
    let run := hay.takeWhile (fun c => isReWord c || c == ',' || c == '@' || c == '-')
    if run.isEmpty then none else some (String.mk run)

/-- Try the full pattern `key\s+(group)` at one position. -/
def matchSshAt (keyLower : List Char) (g : SshGroup) (hay : List Char) :
    Option String :=
  match ciAfter keyLower hay with
  | none => none
  | some rest =>
    let ws := rest.takeWhile isPyWs
    if ws.isEmpty then none
    else matchGroup g (rest.dropWhile isPyWs)

/-- `re.search` for the pattern: first position where it matches. -/
def searchSsh (keyLower : List Char) (g : SshGroup) : List Char → Option String
  | [] => none
  | c :: cs =>
    match matchSshAt keyLower g (c :: cs) with
    | some cap => some cap
    | none => searchSsh keyLower g cs

/-- The `ssh_settings` dict of `_extract_ssh_checks`, in insertion
order. -/
def ssh_settings : List (String × SshGroup) := [
  ("PermitRootLogin", .noyes),
  ("Protocol", .digit),
  ("PasswordAuthentication", .noyes),
  ("PermitEmptyPasswords", .noyes),
  ("X11Forwarding", .noyes),
  ("ClientAliveInterval", .digits),
  ("ClientAliveCountMax", .digits),
  ("MaxAuthTries", .digits),
  ("Ciphers", .wordy),
  ("MACs", .wordy)]

/-- `_extract_ssh_checks`: the `(setting, captured value)` pairs, in the
fixed dict order. -/
def extract_ssh_checks (check_content : String) : List (String × String) :=
  ssh_settings.filterMap (fun p =>
    (searchSsh (pyLower p.1).toList p.2 check_content.toList).map
      (fun cap => (p.1, cap)))

/-! ## `_extract_config_patterns` (lines 988-1009) -/

/-- `re.findall(r'"([^"]+)"', s)`: the non-overlapping quoted fragments,
scanned left to right (a quote immediately followed by another quote
starts a fresh candidate match at the second quote). -/
def findQuotedAux : List Char → Option (List Char) → List String
  | [], _ => []
  | '"' :: rest, none => findQuotedAux rest (some [])
  | '"' :: rest, some [] => findQuotedAux rest (some [])
  | '"' :: rest, some acc => String.mk acc.reverse :: findQuotedAux rest none
  | _ :: rest, none => findQuotedAux rest none
  | c :: rest, some acc => findQuotedAux rest (some (c :: acc))

/-- All quoted fragments of a string. -/
def findQuoted (s : String) : List String :=
  findQuotedAux s.toList none

/-- The characters Python 3.7+ `re.escape` escapes. -/
def isReSpecial (c : Char) : Bool :=
  c == '(' || c == ')' || c == '[' || c == ']' || c == '\x7b' || c == '\x7d' ||
  c == '?' || c == '*' || c == '+' || c == '-' || c == '|' || c == '^' ||
  c == '$' || c == '\\' || c == '.' || c == '&' || c == '~' || c == '#' ||
  c == ' ' || c == '\t' || c == '\n' || c == '\r' || c == '\x0b' || c == '\x0c'

/-- `re.escape`. -/
def reEscape (s : String) : String :=
  String.mk (s.toList.flatMap (fun c => if isReSpecial c then ['\\', c] else [c]))

/-- Match `grep\s+"([^"]+)"` at the current position, returning the
capture and the rest of the input after the closing quote. -/
def matchGrepAt (hay : List Char) : Option (String × List Char) :=
  if hay.take 4 ≠ ['g', 'r', 'e', 'p'] then none
  else
    let rest := hay.drop 4
    let ws := rest.takeWhile isPyWs
    if ws.isEmpty then none
    else
      match rest.dropWhile isPyWs with
      | '"' :: afterQuote =>
        let seg := afterQuote.takeWhile (fun c => c ≠ '"')
        match afterQuote.dropWhile (fun c => c ≠ '"') with
        | '"' :: tail => if seg.isEmpty then none else some (String.mk seg, tail)
        | _ => none
      | _ => none

/-- `re.findall(r'grep\s+"([^"]+)"', s)` with bounded fuel (the caller
passes the input length, which always suffices since every step consumes
at least one character). -/
def findGrepAux : Nat → List Char → List String
  | 0, _ => []
  | _, [] => []
  | fuel + 1, hay@(_ :: rest) =>
    match matchGrepAt hay with
    | some (cap, tail) => cap :: findGrepAux fuel tail
    | none => findGrepAux fuel rest

/-- All `grep "..."` captures of a string. -/
def findGrep (s : String) : List String :=
  findGrepAux s.toList.length s.toList

/-- `_extract_config_patterns`: quoted literals (escaped) plus `grep`
patterns, limited to the first five. -/
def extract_config_patterns (check_content : String) : List String :=
  let quoted := findQuoted check_content
  let patterns := (quoted.filter
    (fun q => 5 < q.length && !(pyStartsWith q "http"))).map reEscape
  (patterns ++ findGrep check_content).take 5

/-! ## Rule records of the two non-typed provenances -/

/-- An XCCDF rule (`library/parser.py` dataclass `XCCDFRule`). -/
structure XCCDFRule where
  rule_id : String
  vuln_id : String
  group_id : String
  title : String
  description : String
  severity : String
  check_content : String
  fix_content : String
  ccis : List String := []
  legacy_ids : List String := []
deriving DecidableEq, Repr

/-- A database rule dict as consumed by `_evaluate_single_db_rule`
(`none` models an absent key; present values are strings, which is what
`DefinitionRepository.get_rules` and the XCCDF conversion produce). -/
structure DbRule where
  vuln_id : Option String := none
  rule_id : Option String := none
  title : Option String := none
  severity : Option String := none
  check_text : Option String := none
  fix_text : Option String := none
  description : Option String := none
deriving DecidableEq, Repr

/-- `severity_map.get(s.lower(), STIGSeverity.MEDIUM)`. -/
def severityFromStr (s : String) : STIGSeverity :=
  if pyLower s == "high" then .HIGH
  else if pyLower s == "medium" then .MEDIUM
  else if pyLower s == "low" then .LOW
  else .MEDIUM

/-- First ssh pattern whose setting is present in `config.ssh_config`
(the `break` in the loop of both heuristic ssh branches). -/
def firstSshHit (config : ParsedConfig) :
    List (String × String) → Option (String × String × PyVal)
  | [] => none
  | (k, e) :: rest =>
    match config.ssh_config.get k with
    | some a => some (k, e, a)
    | none => firstSshHit config rest

/-- Shared ssh-branch logic of the two heuristic evaluators: first
extracted setting that exists in the config decides PASS/FAIL; otherwise
the status stays NOT_REVIEWED with empty details. -/
def sshBranch (config : ParsedConfig) (check_text : String) :
    CheckStatus × String :=
  match firstSshHit config (extract_ssh_checks check_text) with
  | some (key, expected, actual) =>
    if pyLower actual.pyStr == pyLower expected then
      (.PASS, "SSH setting '" ++ key ++ "' is '" ++ actual.pyStr ++ "' (expected: " ++ expected ++ ")")
    else
      (.FAIL, "SSH setting '" ++ key ++ "' is '" ++ actual.pyStr ++ "' (expected: " ++ expected ++ ")")
  | none => (.NOT_REVIEWED, "")

/-- The NTP branch shared by the two heuristic evaluators. -/
def ntpBranch (config : ParsedConfig) : CheckStatus × String :=
  if !config.ntp_servers.isEmpty then
    (.PASS, "NTP configured: " ++ String.intercalate ", " config.ntp_servers)
  else (.FAIL, "NTP not configured")

/-- The syslog branch shared by the two heuristic evaluators. -/
def syslogBranch (config : ParsedConfig) : CheckStatus × String :=
  if !config.syslog_servers.isEmpty then
    (.PASS, "Syslog configured: " ++ String.intercalate ", " config.syslog_servers)
  else (.FAIL, "Remote logging not configured")

/-- The SNMP branch of the database-rule evaluator (presence check
only). -/
def snmpBranchDb (config : ParsedConfig) : CheckStatus × String :=
  if config.snmp_config.truthy then
    (.PASS, "SNMP configured")
  else (.NOT_REVIEWED, "SNMP configuration not detected")

/-- The SNMP branch of the XCCDF evaluator, which additionally demands a
version-3 indicator when the (lowered) check content mentions "v3". -/
def snmpBranchXccdf (check_content : String) (config : ParsedConfig) :
    CheckStatus × String :=
  if config.snmp_config.truthy then
    if pyIn "v3" check_content then
      if config.snmp_config.get "version" == some (.str "3") ||
          pyIn "v3" (pyLower config.snmp_config.pyStr) then
        (.PASS, "SNMPv3 is configured")
      else (.FAIL, "SNMPv3 is not configured")
    else (.PASS, "SNMP configured: " ++ config.snmp_config.pyStr)
  else (.NOT_REVIEWED, "SNMP configuration not detected")

/-- The AAA branch of the XCCDF evaluator. -/
def aaaBranch (config : ParsedConfig) : CheckStatus × String :=
  if config.aaa_config.truthy then
    (.PASS, "AAA configured: " ++ config.aaa_config.pyStr)
  else (.FAIL, "AAA not configured")

/-- The banner branch shared by the two heuristic evaluators. -/
def bannerBranch (config : ParsedConfig) : CheckStatus × String :=
  if optStrTruthy config.banner then
    (.PASS, "Banner configured (" ++ toString (config.banner.getD "").length ++ " chars)")
  else (.FAIL, "No login banner configured")

/-- The `try` body of `_evaluate_single_db_rule` (lines 697-751): the
keyword-sniffing dispatch for database rules.  Note there is no `aaa`
branch and no generic-pattern fallback on this path. -/
def db_rule_body (rule : DbRule) (config : ParsedConfig) :
    CheckStatus × String :=
  let check_text := pyLower (rule.check_text.getD "")
  if pyIn "ssh" check_text then
    sshBranch config (rule.check_text.getD "")
  else if pyIn "ntp" check_text then
    ntpBranch config
  else if pyIn "syslog" check_text || pyIn "log" (pyLower (rule.title.getD "")) then
    syslogBranch config
  else if pyIn "snmp" check_text then
    snmpBranchDb config
  else if pyIn "banner" check_text then
    bannerBranch config
  else
    (.NOT_REVIEWED, "Manual review required")

/-- `_evaluate_single_db_rule` given the outcome of its `try` block; an
exception there becomes ERROR with the message appended, and the result
record is then constructed (pydantic validation applies — the rule id is
`rule.get("vuln_id", rule.get("rule_id", ""))`). -/
def evaluate_single_db_rule_with (rule : DbRule) (job_id : String)
    (body : Except String (CheckStatus × String)) :
    Except String AuditResultCreate :=
  let severity := severityFromStr (rule.severity.getD "medium")
  let r := match body with
    | .ok r => r
    | .error msg => (CheckStatus.ERROR, "Error evaluating rule: " ++ msg)
  mkAuditResult job_id (rule.vuln_id.getD (rule.rule_id.getD ""))
    (some (rule.title.getD "")) (some severity) r.1 (some r.2)

/-- `_evaluate_single_db_rule`. -/
def evaluate_single_db_rule (rule : DbRule) (config : ParsedConfig)
    (job_id : String) : Except String AuditResultCreate :=
  evaluate_single_db_rule_with rule job_id (.ok (db_rule_body rule config))

/-- `_evaluate_db_rules`: one result per rule, in order. -/
def evaluate_db_rules (rules : List DbRule) (config : ParsedConfig)
    (job_id : String) : Except String (List AuditResultCreate) :=
  collectE (fun r => evaluate_single_db_rule r config job_id) rules

/-- First generic pattern that matches `raw_content` (`re.error` entries
are skipped, as the inner `try/except re.error: continue` does). -/
def firstPatternHit (re : RegexO) (raw : String) : List String → Option String
  | [] => none
  | p :: rest =>
    match re p raw with
    | .found _ => some p
    | _ => firstPatternHit re raw rest

/-- The `try` body of `_evaluate_single_xccdf_rule` (lines 856-941): the
keyword-sniffing dispatch for XCCDF rules, with the `aaa` branch and the
generic-pattern fallback. -/
def xccdf_rule_body (re : RegexO) (rule : XCCDFRule) (config : ParsedConfig) :
    CheckStatus × String :=
  let check_content := pyLower rule.check_content
  if pyIn "sshd" check_content || pyIn "ssh" (pyLower rule.title) then
    sshBranch config rule.check_content
  else if pyIn "ntp" check_content || pyIn "time" (pyLower rule.title) then
    ntpBranch config
  else if pyIn "syslog" check_content || pyIn "log" (pyLower rule.title) then
    syslogBranch config
  else if pyIn "snmp" check_content then
    snmpBranchXccdf check_content config
  else if pyIn "aaa" check_content || pyIn "authentication" (pyLower rule.title) then
    aaaBranch config
  else if pyIn "banner" check_content then
    bannerBranch config
  else
    match firstPatternHit re config.raw_content (extract_config_patterns rule.check_content) with
    | some p => (.PASS, "Pattern found: " ++ pyTake p 50)
    | none => (.NOT_REVIEWED, "Manual review required - unable to automatically check this rule")

/-- `_evaluate_single_xccdf_rule` given the outcome of its `try` block;
the result's rule id is `rule.vuln_id`. -/
def evaluate_single_xccdf_rule_with (rule : XCCDFRule) (job_id : String)
    (body : Except String (CheckStatus × String)) :
    Except String AuditResultCreate :=
  let severity := severityFromStr rule.severity
  let r := match body with
    | .ok r => r
    | .error msg => (CheckStatus.ERROR, "Error evaluating rule: " ++ msg)
  mkAuditResult job_id rule.vuln_id (some rule.title) (some severity) r.1 (some r.2)

/-- `_evaluate_single_xccdf_rule`. -/
def evaluate_single_xccdf_rule (re : RegexO) (rule : XCCDFRule)
    (config : ParsedConfig) (job_id : String) :
    Except String AuditResultCreate :=
  evaluate_single_xccdf_rule_with rule job_id (.ok (xccdf_rule_body re rule config))

/-- `_evaluate_xccdf_rules`: one result per rule, in order. -/
def evaluate_xccdf_rules (re : RegexO) (rules : List XCCDFRule)
    (config : ParsedConfig) (job_id : String) :
    Except String (List AuditResultCreate) :=
  collectE (fun r => evaluate_single_xccdf_rule re r config job_id) rules

/-! ## Rule-source resolution: `analyze_config` and
`_analyze_juniper_config` (services/config_checker.py lines 443-641)

The platform parsers' `parse` and the external Juniper analyzer module
are consumed here as outcome arguments: `parseO` is the result of
`parser.parse(content)` (an exception is `.error`), and `junA` is the
behaviour of `analyze_juniper_config` on the collected rule list. -/

/-- The fields of `STIGDefinition` the checker reads (`definition.id`
only feeds logging; `definition.stig_id` selects a library benchmark). -/
structure STIGDefinition where
  id : String
  stig_id : Option String := none
deriving DecidableEq, Repr

/-- String value of a platform member (`platform.value`; used only
inside diagnostic messages — modelled as the lowercase member name). -/
def Platform.val : Platform → String
  | .ARISTA_EOS => "arista_eos"
  | .HPE_ARUBA_CX => "hpe_aruba_cx"
  | .JUNIPER_JUNOS => "juniper_junos"
  | .JUNIPER_SRX => "juniper_srx"
  | .PFSENSE => "pfsense"
  | .MELLANOX => "mellanox"
  | .REDHAT => "redhat"
  | .LINUX => "linux"

/-- `get_parser` availability: the `PARSERS` registry in
`collectors/config_analyzer.py` maps every one of the eight platform
members to a parser class, so the lookup always succeeds. -/
def PARSERS_has (_ : Platform) : Bool := true

/-- Truthiness of the optional `db_rules` argument (`if db_rules:`). -/
def dbRulesTruthy : Option (List DbRule) → Bool
  | none => false
  | some l => !l.isEmpty

/-- The XCCDF-rule lookup of both paths (lines 524-530 and 583-587):
prefer an explicit benchmark id, fall back to the definition's
`stig_id`; `lib` is `_get_xccdf_rules` (library indexer plus cache). -/
def xccdfLookupRules (lib : String → List XCCDFRule)
    (benchmark_id : Option String) (definition : Option STIGDefinition) :
    List XCCDFRule :=
  if optStrTruthy benchmark_id then lib (benchmark_id.getD "")
  else
    match definition with
    | some d => if optStrTruthy d.stig_id then lib (d.stig_id.getD "") else []
    | none => []

/-- The dict an XCCDF rule is converted to on the Juniper path
(lines 596-604; note: no `description` key). -/
def xccdfToDbRule (r : XCCDFRule) : DbRule :=
  { vuln_id := some r.vuln_id, rule_id := some r.rule_id,
    title := some r.title, severity := some r.severity,
    check_text := some r.check_content, fix_text := some r.fix_content }

/-- The dict a built-in check is converted to on the Juniper path
(lines 610-618; `check.description or ""`). -/
def builtinToDbRule (c : ConfigCheckRule) : DbRule :=
  { vuln_id := some c.vuln_id, rule_id := some c.rule_id,
    title := some c.title, severity := some c.severity.val,
    check_text := some c.description, fix_text := some "" }

/-- The rule-collection of `_analyze_juniper_config` (lines 569-618):
database rules first, then XCCDF library rules, then the built-in
Juniper table. -/
def juniper_rules_to_check (platform : Platform)
    (db_rules : Option (List DbRule)) (lib : String → List XCCDFRule)
    (benchmark_id : Option String) (definition : Option STIGDefinition) :
    List DbRule :=
  let r1 : List DbRule := if dbRulesTruthy db_rules then db_rules.getD [] else []
  let r2 : List DbRule :=
    if r1.isEmpty then (xccdfLookupRules lib benchmark_id definition).map xccdfToDbRule
    else r1
  if r2.isEmpty then (PLATFORM_CHECKS platform).map builtinToDbRule
  else r2

/-- `_analyze_juniper_config` tail (lines 620-641): run the external
analyzer on the collected rules; any exception is caught and becomes a
single CONFIG-ANALYSIS-ERROR result. -/
def analyze_juniper_config_result
    (junA : List DbRule → Except String (List AuditResultCreate))
    (rules : List DbRule) (job_id : String) : List AuditResultCreate :=
  match junA rules with
  | .ok res => res
  | .error msg =>
    [⟨job_id, "CONFIG-ANALYSIS-ERROR",
      some "Juniper configuration analysis failed", some .HIGH, .ERROR,
      some ("Error during analysis: " ++ msg), none⟩]

/-- `analyze_config` (lines 443-545).  Juniper platforms divert to the
enhanced checker; otherwise the parser runs (outcome `parseO`), the
built-in platform checks always run first, then database rules are
evaluated when present, else XCCDF library rules when available. -/
def analyze_config (re : RegexO) (parseO : Except String ParsedConfig)
    (junA : List DbRule → Except String (List AuditResultCreate))
    (lib : String → List XCCDFRule) (platform : Platform)
    (definition : Option STIGDefinition) (job_id : String)
    (benchmark_id : Option String) (db_rules : Option (List DbRule)) :
    Except String (List AuditResultCreate) :=
  if platform == .JUNIPER_JUNOS || platform == .JUNIPER_SRX then
    .ok (analyze_juniper_config_result junA
      (juniper_rules_to_check platform db_rules lib benchmark_id definition) job_id)
  else if !PARSERS_has platform then
    .ok [⟨job_id, "CONFIG-PARSE-ERROR",
      some ("No parser available for platform: " ++ platform.val), some .HIGH,
      .ERROR, some ("Configuration analysis is not supported for " ++ platform.val), none⟩]
  else
    match parseO with
    | .error e =>
      .ok [⟨job_id, "CONFIG-PARSE-ERROR",
        some "Configuration parsing failed", some .HIGH, .ERROR,
        some ("Failed to parse configuration: " ++ e), none⟩]
    | .ok config => do
      let builtin ← run_builtin_checks re (PLATFORM_CHECKS platform) config job_id
      if dbRulesTruthy db_rules then
        let dbres ← evaluate_db_rules (db_rules.getD []) config job_id
        return builtin ++ dbres
      else
        let xr := xccdfLookupRules lib benchmark_id definition
        if !xr.isEmpty then
          let xres ← evaluate_xccdf_rules re xr config job_id
          return builtin ++ xres
        else
          return builtin

/-! ## XML element model (for library/parser.py and the pfSense parser)

`defusedxml.ElementTree` hands the code an element tree; an element has
a tag, attributes, an optional text node, an optional tail and child
elements.  Namespace-qualified lookups (`xccdf:Group` etc.) are modelled
by the local tag name. -/

/-- An XML element (ElementTree model). -/
inductive Elem where
  | mk (tag : String) (attrs : List (String × String)) (text : Option String)
      (tail : Option String) (children : List Elem)

/-- Element tag. -/
def Elem.tag : Elem → String
  | .mk t _ _ _ _ => t

/-- Element attributes. -/
def Elem.attrs : Elem → List (String × String)
  | .mk _ a _ _ _ => a

/-- Element text node. -/
def Elem.text : Elem → Option String
  | .mk _ _ t _ _ => t

/-- Element tail text. -/
def Elem.tailText : Elem → Option String
  | .mk _ _ _ t _ => t

/-- Element children. -/
def Elem.children : Elem → List Elem
  | .mk _ _ _ _ c => c

/-- `elem.get(k, dflt)`. -/
def Elem.attr (e : Elem) (k : String) (dflt : String) : String :=
  match e.attrs.find? (fun p => p.1 == k) with
  | some p => p.2
  | none => dflt

/-- `elem.find(tag)`: first direct child with the tag. -/
def Elem.findChild (e : Elem) (t : String) : Option Elem :=
  e.children.find? (fun c => c.tag == t)

/-- `elem.findall(tag)`: all direct children with the tag. -/
def Elem.findChildren (e : Elem) (t : String) : List Elem :=
  e.children.filter (fun c => c.tag == t)

mutual

/-- All elements of a forest in document order (each root followed by
its descendants). -/
def descForest : List Elem → List Elem
  | [] => []
  | e :: es => e :: (descTree e ++ descForest es)

/-- All proper descendants of an element in document order. -/
def descTree : Elem → List Elem
  | .mk _ _ _ _ cs => descForest cs

end

/-- `elem.findall(".//" ++ tag)` / `elem.find(".//" ++ tag)` basis: the
proper descendants of an element in document order. -/
def Elem.descendants (e : Elem) : List Elem :=
  descTree e

/-- Python `s.strip()` (ASCII whitespace model). -/
def pyStrip (s : String) : String :=
  String.mk (((s.toList.dropWhile isPyWs).reverse.dropWhile isPyWs).reverse)

/-- Python `s.split()` with no arguments: split on whitespace runs,
discarding empties. -/
def pySplitWsAux : List Char → List Char → List String
  | [], acc => if acc.isEmpty then [] else [String.mk acc.reverse]
  | c :: cs, acc =>
    if isPyWs c then
      if acc.isEmpty then pySplitWsAux cs []
      else String.mk acc.reverse :: pySplitWsAux cs []
    else pySplitWsAux cs (c :: acc)

/-- Python `s.split()`. -/
def pySplitWs (s : String) : List String :=
  pySplitWsAux s.toList []

/-- `text if elem is not None and elem.text else dflt` helper used by
the metadata and rule extraction. -/
def textOr (e? : Option Elem) (dflt : String) : String :=
  match e? with
  | some e =>
    match e.text with
    | some s => if !s.isEmpty then s else dflt
    | none => dflt
  | none => dflt

/-- Truthy text pieces of an optional string (`if x:` collection). -/
def truthyPiece : Option String → List String
  | some t => if !t.isEmpty then [t] else []
  | none => []

/-- `_extract_text` (library/parser.py lines 393-416): the element's own
text plus each direct child's text and tail, joined with single spaces
and stripped. -/
def extract_text (e? : Option Elem) : String :=
  match e? with
  | none => ""
  | some e =>
    let own := truthyPiece e.text
    let fromChildren := e.children.flatMap
      (fun c => truthyPiece c.text ++ truthyPiece c.tailText)
    pyStrip (String.intercalate " " (own ++ fromChildren))

/-! ## `_extract_rules` and `_extract_metadata`
(library/parser.py lines 256-391) -/

/-- Extraction of one Group/Rule pair (the body of the loop in
`_extract_rules`); `vuln_id` is the Group's `id` attribute (defaulted to
the empty string) and the rule id is the Rule's `id` attribute,
likewise defaulted. -/
def extract_one_rule (vuln_id : String) (rule_elem : Elem) : XCCDFRule :=
  let identTexts := (rule_elem.findChildren "ident").map (fun i => (i.text).getD "")
  { rule_id := rule_elem.attr "id" ""
    vuln_id := vuln_id
    group_id := ((identTexts.find? (fun t => pyStartsWith t "SRG-")).getD "")
    title := textOr (rule_elem.findChild "title") ""
    description := extract_text (rule_elem.findChild "description")
    severity := rule_elem.attr "severity" "medium"
    check_content := extract_text
      (rule_elem.descendants.find? (fun c => c.tag == "check-content"))
    fix_content := extract_text (rule_elem.findChild "fixtext")
    ccis := identTexts.filter (fun t => pyStartsWith t "CCI-")
    legacy_ids := identTexts.filter
      (fun t => (pyStartsWith t "SV-" || pyStartsWith t "V-") && t != vuln_id) }

/-- `_extract_rules`: every descendant `Group` element that has a direct
`Rule` child yields one `XCCDFRule`; a Group without a Rule child is
skipped (`continue`). -/
def extract_rules (root : Elem) : List XCCDFRule :=
  (root.descendants.filter (fun g => g.tag == "Group")).filterMap
    (fun g => (g.findChild "Rule").map (extract_one_rule (g.attr "id" "")))

/-- The metadata fields of a benchmark that the stated theorems depend
on (`STIGEntry` in `library/catalog.py`; the release/date/profile/type
fields and platform detection are not consumed by any theorem in this
file and are omitted from the record). -/
structure STIGEntry where
  benchmark_id : String
  title : String
  version : String
  status : String
  rules_count : Nat := 0
  high_count : Nat := 0
  medium_count : Nat := 0
  low_count : Nat := 0
deriving DecidableEq, Repr

/-- `_extract_metadata`: fails (returns `none`) exactly when the root's
benchmark `id` attribute is missing or empty. -/
def extract_metadata (root : Elem) : Option STIGEntry :=
  let benchmark_id := root.attr "id" ""
  if benchmark_id.isEmpty then none
  else
    some
      { benchmark_id := benchmark_id
        title := textOr (root.findChild "title") ""
        version := textOr (root.findChild "version") "1"
        status := textOr (root.findChild "status") "accepted" }

/-! ## `parse_zip` / `_parse_xccdf_content` with their resource limits
(library/parser.py lines 77-138 and 202-254)

Each run is instrumented with a trace of the security-relevant events,
in execution order, so that "checked before read/parse" statements are
provable facts about the code's control flow. -/

/-- Security-relevant events of an extraction run. -/
inductive ZEvent where
  | checkedEntryCount
  | checkedEntrySize
  | readEntry
  | checkedXmlSize
  | parsedXml
deriving DecidableEq, Repr

/-- The configured limits (core/config.py; defaults 50 MB XML, 100 MB
per ZIP entry, 500 entries). -/
structure Settings where
  max_xml_size : Nat := 52428800
  max_zip_entry_size : Nat := 104857600
  max_zip_entries : Nat := 500
deriving DecidableEq, Repr

/-- The default settings instance. -/
def defaultSettings : Settings := {}

/-- Outcome of `defusedxml.ElementTree.fromstring` on a byte string: a
parsed tree, an `xml.etree.ElementTree.ParseError` (the only class the
code catches), or a defusedxml security rejection such as
`EntitiesForbidden` (raised for inline entity declarations; a subclass
of `ValueError`, not of `ParseError`). -/
inductive FromStr where
  | ok (root : Elem)
  | parseError (msg : String)
  | entitiesForbidden

/-- A byte string fed to the XML layer: its length and what
`fromstring` would do with it. -/
structure XmlBytes where
  len : Nat
  fromstring : FromStr

/-- `_parse_xccdf_content`: size limit first, then the (defused) parse,
then metadata and rule extraction.  `.error` models an uncaught
defusedxml rejection propagating out of the method (only `ParseError`
is caught there). -/
def parse_xccdf_content (s : Settings) (content : XmlBytes) :
    Except String (Option STIGEntry × List XCCDFRule) × List ZEvent :=
  if content.len > s.max_xml_size then
    (.ok (none, []), [.checkedXmlSize])
  else
    match content.fromstring with
    | .parseError _ => (.ok (none, []), [.checkedXmlSize, .parsedXml])
    | .entitiesForbidden => (.error "EntitiesForbidden", [.checkedXmlSize, .parsedXml])
    | .ok root =>
      match extract_metadata root with
      | none => (.ok (none, []), [.checkedXmlSize, .parsedXml])
      | some entry =>
        let rules := extract_rules root
        (.ok
          (some { entry with
            rules_count := rules.length
            high_count := (rules.filter (fun r => r.severity == "high")).length
            medium_count := (rules.filter (fun r => r.severity == "medium")).length
            low_count := (rules.filter (fun r => r.severity == "low")).length },
           rules),
         [.checkedXmlSize, .parsedXml])

/-- One ZIP entry: the name and declared (central-directory) size that
`namelist`/`getinfo` report, and the bytes `zf.open(...).read()` would
yield. -/
structure ZipEntry where
  name : String
  file_size : Nat
  content : XmlBytes

/-- `_find_xccdf_file`'s per-name test (both conditions are tried for a
name before moving to the next; note the second condition checks
`.xml` on the original-case name). -/
def isXccdfName (n : String) : Bool :=
  pyEndsWith (pyLower n) "-xccdf.xml" || pyEndsWith (pyLower n) "_xccdf.xml" ||
  (pyIn "xccdf" (pyLower n) && pyEndsWith n ".xml")

/-- `parse_zip`: `none` input models a `BadZipFile` (caught, empty
result).  The entry-count limit is checked against the name list before
anything else; the entry-size limit is checked on the declared size
before the entry is opened; only then is the entry read and handed to
`_parse_xccdf_content`.  The outer `except Exception` turns a
propagating defusedxml rejection into the empty result as well. -/
def parse_zip (s : Settings) (zip : Option (List ZipEntry)) :
    (Option STIGEntry × List XCCDFRule) × List ZEvent :=
  match zip with
  | none => ((none, []), [])
  | some entries =>
    if entries.length > s.max_zip_entries then
      ((none, []), [.checkedEntryCount])
    else
      match entries.find? (fun e => isXccdfName e.name) with
      | none => ((none, []), [.checkedEntryCount])
      | some entry =>
        if entry.file_size > s.max_zip_entry_size then
          ((none, []), [.checkedEntryCount, .checkedEntrySize])
        else
          let inner := parse_xccdf_content s entry.content
          let trace := [ZEvent.checkedEntryCount, ZEvent.checkedEntrySize,
            ZEvent.readEntry] ++ inner.2
          match inner.1 with
          | .ok res => (res, trace)
          | .error _ => ((none, []), trace)

/-! ## pfSense configuration parser
(collectors/config_analyzer.py lines 452-561) -/

/-- `d[k] = v` on a Python dict: update in place or append. -/
def PyDict.setKey (d : PyDict) (k : String) (v : PyVal) : PyDict :=
  if List.any d (fun p => p.1 == k) then
    List.map (fun p => if p.1 == k then (k, v) else p) d
  else d ++ [(k, v)]

/-- `d.setdefault(k, []).append(v)` (the stored value is always a list
at the call sites in this file). -/
def PyDict.setdefaultAppend (d : PyDict) (k : String) (v : PyVal) : PyDict :=
  match d.get k with
  | some (.list l) => d.setKey k (.list (l ++ [v]))
  | some other => d.setKey k other
  | none => d.setKey k (.list [v])

/-- `d[k] = v` on a tag→text dict (the firewall-rule dicts). -/
def dictInsertO (d : List (String × Option String)) (k : String)
    (v : Option String) : List (String × Option String) :=
  if List.any d (fun p => p.1 == k) then
    List.map (fun p => if p.1 == k then (k, v) else p) d
  else d ++ [(k, v)]

/-- f-string rendering of an optional text node (`None` prints as
"None"). -/
def textStr : Option String → String
  | some t => t
  | none => "None"

/-- One interface entry of the pfSense parser (lines 510-521). -/
def pfIface (iface : Elem) : IfaceEntry :=
  iface.children.foldl
    (fun acc child =>
      let acc := { acc with
        config := acc.config ++ [child.tag ++ ": " ++ textStr child.text] }
      let acc := if child.tag == "ipaddr" then { acc with ip := some child.text } else acc
      if child.tag == "descr" then { acc with description := some child.text } else acc)
    { name := iface.tag, config := [] }

/-- Truthy text nodes of a list of elements (`if server.text:`). -/
def truthyTexts (es : List Elem) : List String :=
  es.flatMap (fun e => truthyPiece e.text)

/-- The `<system>` section of the pfSense walk (lines 483-505):
hostname, DNS server, time servers and SSH settings. -/
def pfSystemStep (c : ParsedConfig) (root : Elem) : ParsedConfig :=
  match root.findChild "system" with
  | none => c
  | some system =>
    let c :=
      match system.findChild "hostname" with
      | some h => { c with hostname := h.text }
      | none => c
    let c :=
      match system.findChild "dnsserver" with
      | some d =>
        match d.text with
        | some t =>
          if !t.isEmpty then { c with dns_servers := c.dns_servers ++ [t] } else c
        | none => c
      | none => c
    let c :=
      match system.findChild "timeservers" with
      | some ts =>
        match ts.text with
        | some t =>
          if !t.isEmpty then { c with ntp_servers := c.ntp_servers ++ pySplitWs t } else c
        | none => c
      | none => c
    match system.findChild "ssh" with
    | some sshE =>
      let c := { c with ssh_config := c.ssh_config.setKey "enabled" (.bool true) }
      match sshE.findChild "port" with
      | some p =>
        let v := match p.text with | some t => PyVal.str t | none => PyVal.nil
        { c with ssh_config := c.ssh_config.setKey "port" v }
      | none => c
    | none => c

/-- The `<interfaces>` section (lines 507-521). -/
def pfIfacesStep (c : ParsedConfig) (root : Elem) : ParsedConfig :=
  match root.findChild "interfaces" with
  | some interfaces =>
    { c with interfaces := c.interfaces ++ interfaces.children.map pfIface }
  | none => c

/-- The `<filter>` firewall-rule section (lines 523-530). -/
def pfFilterStep (c : ParsedConfig) (root : Elem) : ParsedConfig :=
  match root.findChild "filter" with
  | some filterElem =>
    let newAcls := (filterElem.findChildren "rule").map
      (fun (rule : Elem) => rule.children.foldl
        (fun d (child : Elem) => dictInsertO d child.tag child.text) [])
    { c with acls := c.acls ++ newAcls }
  | none => c

/-- The `.//user` section (lines 532-538). -/
def pfUsersStep (c : ParsedConfig) (root : Elem) : ParsedConfig :=
  let newUsers : List UserEntry :=
    (root.descendants.filter (fun e => e.tag == "user")).map
      (fun user =>
        match user.findChild "name" with
        | some n => { name := n.text, config := "" }
        | none => { name := some "", config := "" })
  { c with users := c.users ++ newUsers }

/-- The `.//syslog` section (lines 540-551). -/
def pfSyslogStep (c : ParsedConfig) (root : Elem) : ParsedConfig :=
  match root.descendants.find? (fun e => e.tag == "syslog") with
  | some syslogE =>
    let newSyslog := truthyTexts (syslogE.findChildren "remoteserver") ++
      truthyTexts (syslogE.findChildren "remoteserver2") ++
      truthyTexts (syslogE.findChildren "remoteserver3")
    { c with syslog_servers := c.syslog_servers ++ newSyslog }
  | none => c

/-- The `.//snmpd` section (lines 553-559). -/
def pfSnmpStep (c : ParsedConfig) (root : Elem) : ParsedConfig :=
  match root.descendants.find? (fun e => e.tag == "snmpd") with
  | some snmpdE =>
    let c := { c with snmp_config := c.snmp_config.setKey "enabled" (.bool true) }
    match snmpdE.findChild "rocommunity" with
    | some community =>
      let v := match community.text with | some t => PyVal.str t | none => PyVal.nil
      { c with snmp_config := c.snmp_config.setdefaultAppend "communities" v }
    | none => c
  | none => c

/-- The tree walk of `PfSenseParser.parse` after a successful
`fromstring` (lines 482-561): the sections applied in source order. -/
def pfsense_walk (base : ParsedConfig) (root : Elem) : ParsedConfig :=
  pfSnmpStep (pfSyslogStep (pfUsersStep (pfFilterStep
    (pfIfacesStep (pfSystemStep base root) root) root) root) root) root

/-- `PfSenseParser.parse`: builds the base config, enforces the XML size
limit on the UTF-8 byte length before parsing, hands the content to
`defusedxml.fromstring` (`fromstring` is this content's parse outcome)
and walks the tree.  Only `ET.ParseError` is caught, so a defusedxml
security rejection (`.entitiesForbidden`) propagates out of `parse` —
modelled as `.error`.  The trace records whether the size check and the
parse call happened. -/
def pfsense_parse (s : Settings) (content : String) (fromstring : FromStr) :
    Except String ParsedConfig × List ZEvent :=
  let base : ParsedConfig := { platform := .PFSENSE, raw_content := content }
  if content.utf8ByteSize > s.max_xml_size then
    (.ok base, [.checkedXmlSize])
  else
    match fromstring with
    | .parseError _ => (.ok base, [.checkedXmlSize, .parsedXml])
    | .entitiesForbidden =>
      (.error "defusedxml.EntitiesForbidden", [.checkedXmlSize, .parsedXml])
    | .ok root => (.ok (pfsense_walk base root), [.checkedXmlSize, .parsedXml])

/-! ## Compliance score (services/audit.py lines 203-252 and
api/routes.py lines 1512-1537) -/

/-- Python `round(x, 2)` on an exact rational: round half to even at two
decimals. -/
def pyRound2 (q : ℚ) : ℚ :=
  let x := q * 100
  let fl : ℤ := Int.floor x
  let frac := x - (fl : ℚ)
  let r : ℤ :=
    if frac > 1 / 2 then fl + 1
    else if frac < 1 / 2 then fl
    else if fl % 2 = 0 then fl else fl + 1
  (r : ℚ) / 100

/-- The compliance score of `AuditService.get_compliance_summary`:
`passed / (passed + failed) * 100` when the denominator is positive,
`0.0` otherwise, rounded to two decimals when placed into the
`ComplianceSummary`. -/
def compliance_score (passed failed : Nat) : ℚ :=
  let applicable := passed + failed
  let score : ℚ :=
    if applicable > 0 then (passed : ℚ) / (applicable : ℚ) * 100 else 0
  pyRound2 score

/-- Count of results with a given status (the `sum(1 for r in results
if r.status == ...)` aggregations of `analyze_config_standalone`). -/
def statusCount (results : List AuditResultCreate) (st : CheckStatus) : Nat :=
  (results.filter (fun r => r.status == st)).length

/-- The summary computed by the standalone analysis route
(api/routes.py lines 1512-1537). -/
structure StandaloneSummary where
  total : Nat
  passed : Nat
  failed : Nat
  not_reviewed : Nat
  errors : Nat
  score : ℚ
deriving DecidableEq, Repr

/-- `analyze_config_standalone`'s aggregation of a result list. -/
def standalone_summary (results : List AuditResultCreate) : StandaloneSummary :=
  let passed := statusCount results .PASS
  let failed := statusCount results .FAIL
  { total := results.length
    passed := passed
    failed := failed
    not_reviewed := statusCount results .NOT_REVIEWED
    errors := statusCount results .ERROR
    score := pyRound2
      (if passed + failed > 0 then (passed : ℚ) / ((passed + failed : Nat) : ℚ) * 100 else 0) }

/-! ## Audit job status operations (db/repository.py lines 566-608 and
services/audit.py lines 254-273) -/

/-- The status-relevant columns of a `stig.audit_jobs` row (`started_at`
and `completed_at` abbreviated to "is set"). -/
structure AuditJobRec where
  status : AuditStatus
  started_at : Bool
  completed_at : Bool
  error_message : Option String
deriving DecidableEq, Repr

/-- Terminal states per the spec's state machine. -/
def AuditStatus.isTerminal : AuditStatus → Bool
  | .COMPLETED | .FAILED | .CANCELLED => true
  | _ => false

/-- `AuditJobRepository.update_status`: an unguarded UPDATE — RUNNING
also stamps `started_at`, the three terminal statuses also stamp
`completed_at` and store the error message, any other status is written
as-is.  No branch inspects the current status. -/
def update_status (j : AuditJobRec) (s : AuditStatus) (err : Option String) :
    AuditJobRec :=
  if s == .RUNNING then
    { j with status := s, started_at := true }
  else if s == .COMPLETED || s == .FAILED || s == .CANCELLED then
    { j with status := s, completed_at := true, error_message := err }
  else
    { j with status := s }

/-- `AuditService.cancel_audit`: `False` for a missing job and for a job
whose status is not PENDING/RUNNING (no write happens); otherwise the
job is updated to CANCELLED and `True` is returned. -/
def cancel_audit : Option AuditJobRec → Bool × Option AuditJobRec
  | none => (false, none)
  | some j =>
    if j.status == .PENDING || j.status == .RUNNING then
      (true, some (update_status j .CANCELLED none))
    else
      (false, some j)

/-! ## Ordered-dispatch view of the heuristic evaluators (spec shape)

The spec presents the heuristic evaluation as an ordered keyword table
("first keyword match wins").  `firstMatch` gives that semantics; the
dispatch-order theorems relate the embedded `if/elif` chains to these
tables. -/

/-- First entry whose guard holds, else the default. -/
def firstMatch {α : Type} : List (Bool × α) → α → α
  | [], dflt => dflt
  | (g, a) :: rest, dflt => if g then a else firstMatch rest dflt

/-- The XCCDF heuristic dispatch as an ordered table:
ssh → ntp → syslog → snmp → aaa → banner, then the generic-pattern
fallback. -/
def xccdf_dispatch_table (re : RegexO) (rule : XCCDFRule)
    (config : ParsedConfig) : CheckStatus × String :=
  let cc := pyLower rule.check_content
  let tl := pyLower rule.title
  firstMatch [
    (pyIn "sshd" cc || pyIn "ssh" tl, sshBranch config rule.check_content),
    (pyIn "ntp" cc || pyIn "time" tl, ntpBranch config),
    (pyIn "syslog" cc || pyIn "log" tl, syslogBranch config),
    (pyIn "snmp" cc, snmpBranchXccdf cc config),
    (pyIn "aaa" cc || pyIn "authentication" tl, aaaBranch config),
    (pyIn "banner" cc, bannerBranch config)]
    (match firstPatternHit re config.raw_content (extract_config_patterns rule.check_content) with
     | some p => (.PASS, "Pattern found: " ++ pyTake p 50)
     | none => (.NOT_REVIEWED, "Manual review required - unable to automatically check this rule"))

/-- The database heuristic dispatch as an ordered table:
ssh → ntp → syslog → snmp → banner, with a bare manual-review default —
no aaa entry and no generic-pattern fallback. -/
def db_dispatch_table (rule : DbRule) (config : ParsedConfig) :
    CheckStatus × String :=
  let ct := pyLower (rule.check_text.getD "")
  let tl := pyLower (rule.title.getD "")
  firstMatch [
    (pyIn "ssh" ct, sshBranch config (rule.check_text.getD "")),
    (pyIn "ntp" ct, ntpBranch config),
    (pyIn "syslog" ct || pyIn "log" tl, syslogBranch config),
    (pyIn "snmp" ct, snmpBranchDb config),
    (pyIn "banner" ct, bannerBranch config)]
    (.NOT_REVIEWED, "Manual review required")

/-! ## Trace predicates for the extraction limits -/

/-- Is an event one of the three limit checks? -/
def ZEvent.isLimitCheck : ZEvent → Bool
  | .checkedEntryCount | .checkedEntrySize | .checkedXmlSize => true
  | _ => false

/-- Does some limit check occur after a read event in the trace? -/
def checkAfterRead : List ZEvent → Bool
  | [] => false
  | .readEntry :: rest => rest.any ZEvent.isLimitCheck || checkAfterRead rest
  | _ :: rest => checkAfterRead rest

/-- Does some limit check occur after a parse event in the trace? -/
def checkAfterParse : List ZEvent → Bool
  | [] => false
  | .parsedXml :: rest => rest.any ZEvent.isLimitCheck || checkAfterParse rest
  | _ :: rest => checkAfterParse rest

/-- Membership of a status in the five-element enum, stated as the spec
does. -/
def statusEnum : List CheckStatus :=
  [.PASS, .FAIL, .NOT_APPLICABLE, .NOT_REVIEWED, .ERROR]

/-! ## Concrete instances used in the claim theorems -/

/-- The `PASS_MAX_DAYS` rule of the built-in RedHat table
(`RHEL-09-411010`). -/
def rhel_pass_max_rule : ConfigCheckRule :=
  { rule_id := "RHEL-09-411010", vuln_id := "V-257780",
    title := "RHEL 9 must set password maximum lifetime",
    severity := .MEDIUM, check_type := "setting",
    check_key := some "PASS_MAX_DAYS", expected_value := some "60",
    description := "PASS_MAX_DAYS must be 60 or less" }

/-- The `PASS_MIN_DAYS` rule of the built-in RedHat table
(`RHEL-09-411015`). -/
def rhel_pass_min_rule : ConfigCheckRule :=
  { rule_id := "RHEL-09-411015", vuln_id := "V-257781",
    title := "RHEL 9 must set password minimum lifetime",
    severity := .MEDIUM, check_type := "setting",
    check_key := some "PASS_MIN_DAYS", expected_value := some "1",
    description := "PASS_MIN_DAYS must be 1 or greater" }

/-- A RedHat config holding exactly one setting. -/
def oneSettingCfg (k v : String) : ParsedConfig :=
  { platform := .REDHAT, settings := [(k, v)] }

/-- An empty Arista config (all fields defaulted). -/
def emptyAristaCfg : ParsedConfig :=
  { platform := .ARISTA_EOS }

/-- A regex oracle on which no pattern ever matches (used to fix the
external engine in concrete runs whose outcome does not depend on
it). -/
def noMatchRe : RegexO := fun _ _ => .noMatch

/-- An XCCDF rule as extracted from a Group element that carries no
`id` attribute: the `vuln_id` is the defaulted empty string. -/
def emptyVulnIdRule : XCCDFRule :=
  { rule_id := "SV-1r1_rule", vuln_id := "", group_id := "",
    title := "Some title", description := "", severity := "medium",
    check_content := "Some check guidance.", fix_content := "" }

/-- A well-formed XCCDF rule whose check content mentions NTP. -/
def ntpXccdfRule : XCCDFRule :=
  { rule_id := "SV-2r1_rule", vuln_id := "V-2", group_id := "",
    title := "Router title", description := "", severity := "high",
    check_content := "verify ntp server is configured", fix_content := "" }

/-- A database rule whose check text is exactly the keyword `aaa`. -/
def aaaDbRule : DbRule :=
  { vuln_id := some "V-1", rule_id := some "V-1", title := some "",
    severity := some "medium", check_text := some "aaa", fix_text := some "" }

/-- The XCCDF twin of `aaaDbRule`: same check text, same (empty)
title. -/
def aaaXccdfRule : XCCDFRule :=
  { rule_id := "SV-3r1_rule", vuln_id := "V-3", group_id := "",
    title := "", description := "", severity := "medium",
    check_content := "aaa", fix_content := "" }

/-- A database rule whose check text mentions NTP. -/
def ntpDbRule : DbRule :=
  { vuln_id := some "V-100", rule_id := some "V-100", title := some "x",
    severity := some "high", check_text := some "ntp", fix_text := some "" }

/-- A benchmark document holding one Group (id `V-1`) whose Rule element
carries no `id` attribute. -/
def benchNoRuleId : Elem :=
  .mk "Benchmark" [("id", "B-1")] none none
    [.mk "Group" [("id", "V-1")] none none
      [.mk "Rule" [("severity", "high")] none none []]]

/-- A pfSense XML upload carrying an inline entity declaration: the
hardened parser rejects it with `EntitiesForbidden` (a `ValueError`,
not the `ParseError` the code catches). -/
def entityPfContent : String :=
  "<!DOCTYPE pfsense [<!ENTITY a \"boom\">]><pfsense><system><hostname>&a;</hostname></system></pfsense>"

/-- A ZIP with a single honest XCCDF entry whose declared and actual
size (50 MB + 1 byte) is within the per-entry limit but above the raw
XML limit, so the entry is read before the XML size check rejects it. -/
def oversizedXmlZip : Option (List ZipEntry) :=
  some [{ name := "U_Test_STIG-xccdf.xml", file_size := 52428801,
          content := { len := 52428801, fromstring := .parseError "never reached" } }]

/-- A completed audit job row. -/
def completedJob : AuditJobRec :=
  { status := .COMPLETED, started_at := true, completed_at := true,
    error_message := none }

/-- A freshly created (pending) audit job row. -/
def pendingJob : AuditJobRec :=
  { status := .PENDING, started_at := false, completed_at := false,
    error_message := none }

/-! ## Helper lemmas -/

/-- Every status is in the five-element enum. -/
theorem statusEnum_mem (st : CheckStatus) : st ∈ statusEnum := by
  cases st <;> simp [statusEnum]

/-- Construction succeeds when the rule id is within the pydantic
bounds. -/
theorem mkAuditResult_ok (job rid : String) (t : Option String)
    (sv : Option STIGSeverity) (st : CheckStatus) (fd : Option String)
    (h1 : 1 ≤ rid.length) (h2 : rid.length ≤ 100) :
    mkAuditResult job rid t sv st fd = .ok ⟨job, rid, t, sv, st, fd, none⟩ := by
  unfold mkAuditResult
  rw [if_pos ⟨h1, h2⟩]

/-- A string of positive length is not empty. -/
theorem ne_empty_of_len_pos {s : String} (h : 1 ≤ s.length) : s ≠ "" := by
  intro he
  subst he
  simp at h

/-- A string that `int()` accepts is non-empty (hence truthy). -/
theorem pyInt?_truthy {s : String} {n : Int} (h : pyInt? s = some n) :
    optStrTruthy (some s) = true := by
  have hne : s ≠ "" := by
    intro he
    subst he
    simp [pyInt?, pyParseNat] at h
  have : s.isEmpty = false := by
    rcases hb : s.isEmpty with _ | _
    · rfl
    · exact absurd ((String.isEmpty_iff s).mp hb) hne
  simp [optStrTruthy, this]

/-- Collection succeeds element-wise: one output per input, each output
produced by its input. -/
theorem collectE_ok {α β : Type} (f : α → Except String β) (l : List α)
    (h : ∀ a ∈ l, ∃ b, f a = .ok b) :
    ∃ res, collectE f l = .ok res ∧ res.length = l.length ∧
      ∀ b ∈ res, ∃ a, a ∈ l ∧ f a = .ok b := by
  induction l with
  | nil => exact ⟨[], rfl, rfl, by simp⟩
  | cons x xs ih =>
    obtain ⟨b, hb⟩ := h x (List.mem_cons_self x xs)
    obtain ⟨res, hres, hlen, hmem⟩ := ih (fun a ha => h a (List.mem_cons_of_mem x ha))
    refine ⟨b :: res, ?_, by simp [hlen], ?_⟩
    · simp [collectE, hb, hres]
    · intro c hc
      rcases List.mem_cons.mp hc with h1 | h2
      · exact ⟨x, List.mem_cons_self x xs, h1 ▸ hb⟩
      · obtain ⟨a, ha, hfa⟩ := hmem c h2
        exact ⟨a, List.mem_cons_of_mem x ha, hfa⟩

/-! ## C8 — compliance score -/

/-- C8: for every job summary, `compliance_score` equals
`passed / (passed + failed) × 100` rounded to two decimals, and equals 0
whenever `passed + failed = 0`; in particular the score is `0` at
`(0, 0)` and `80` at `(8, 2)`; the standalone route aggregates a result
list the same way. -/
theorem C8_compliance_score (p f : Nat) (results : List AuditResultCreate) :
    compliance_score p f =
      (if p + f = 0 then 0 else pyRound2 ((p : ℚ) / ((p + f : Nat) : ℚ) * 100)) ∧
    compliance_score 0 0 = 0 ∧
    compliance_score 8 2 = 80 ∧
    (standalone_summary results).score =
      compliance_score (statusCount results .PASS) (statusCount results .FAIL) := by
  have hzero : pyRound2 0 = 0 := by
    unfold pyRound2
    norm_num
  refine ⟨?_, ?_, ?_, ?_⟩
  · unfold compliance_score
    by_cases h : p + f = 0
    · simp [h, hzero]
    · have hpos : p + f > 0 := Nat.pos_of_ne_zero h
      simp [h, hpos]
  · unfold compliance_score
    simpa using hzero
  · unfold compliance_score pyRound2
    norm_num
  · rfl

/-! ## C9 — password-age setting policies -/

/-- C9: a setting check whose key is `PASS_MAX_DAYS` passes exactly when
the integer value of the setting is at most the expected integer and
fails when it is greater; with key `PASS_MIN_DAYS` it passes exactly
when the value is at least the expected integer; the built-in RedHat
table contains the `PASS_MAX_DAYS ≤ 60` rule, which yields PASS at 60,
FAIL at 90 and ERROR on a non-numeric value. -/
theorem C9_password_age_policies
    (r r2 : ConfigCheckRule) (config config2 : ParsedConfig)
    (v e v2 e2 : String) (n m n2 m2 : Int)
    (hk : r.check_key = some "PASS_MAX_DAYS")
    (he : r.expected_value = some e)
    (hv : config.getSetting "PASS_MAX_DAYS" = some v)
    (hn : pyInt? v = some n) (hm : pyInt? e = some m)
    (hk2 : r2.check_key = some "PASS_MIN_DAYS")
    (he2 : r2.expected_value = some e2)
    (hv2 : config2.getSetting "PASS_MIN_DAYS" = some v2)
    (hn2 : pyInt? v2 = some n2) (hm2 : pyInt? e2 = some m2) :
    ((check_setting r config).1 = if n ≤ m then CheckStatus.PASS else CheckStatus.FAIL) ∧
    ((check_setting r2 config2).1 = if n2 ≥ m2 then CheckStatus.PASS else CheckStatus.FAIL) ∧
    rhel_pass_max_rule ∈ REDHAT_CHECKS ∧
    check_setting rhel_pass_max_rule (oneSettingCfg "PASS_MAX_DAYS" "60") =
      (CheckStatus.PASS, "PASS_MAX_DAYS is 60 (expected <= 60)") ∧
    check_setting rhel_pass_max_rule (oneSettingCfg "PASS_MAX_DAYS" "90") =
      (CheckStatus.FAIL, "PASS_MAX_DAYS is 90 (expected <= 60)") ∧
    check_setting rhel_pass_max_rule (oneSettingCfg "PASS_MAX_DAYS" "abc") =
      (CheckStatus.ERROR, "Invalid numeric value: abc") := by
  refine ⟨?_, ?_, by decide, by decide, by decide, by decide⟩
  · have het := pyInt?_truthy hm
    have hee : e.isEmpty = false := by simpa [optStrTruthy] using het
    unfold check_setting
    rw [hk]
    simp only [optStrTruthy, Option.getD_some, hv, he, het]
    simp [hn, hm]
    have hk0 : ("PASS_MAX_DAYS").isEmpty = false := by decide
    by_cases hle : n ≤ m <;> simp [hle, hee, hk0]
  · have het := pyInt?_truthy hm2
    have hee : e2.isEmpty = false := by simpa [optStrTruthy] using het
    unfold check_setting
    rw [hk2]
    simp only [optStrTruthy, Option.getD_some, hv2, he2, het]
    simp [hn2, hm2]
    have hk0 : ("PASS_MIN_DAYS").isEmpty = false := by decide
    by_cases hle : n2 ≥ m2 <;> simp [hle, hee, hk0]

/-- Witness for C9: the general statement applied at a concrete rule,
config and value (`PASS_MAX_DAYS = 45` against `≤ 60`, and
`PASS_MIN_DAYS = 7` against `≥ 1`). -/
theorem C9_password_age_policies_witness :
    ((check_setting rhel_pass_max_rule (oneSettingCfg "PASS_MAX_DAYS" "45")).1 =
      if (45 : Int) ≤ 60 then CheckStatus.PASS else CheckStatus.FAIL) ∧
    ((check_setting rhel_pass_min_rule (oneSettingCfg "PASS_MIN_DAYS" "7")).1 =
      if (7 : Int) ≥ 1 then CheckStatus.PASS else CheckStatus.FAIL) :=
  let h := C9_password_age_policies rhel_pass_max_rule rhel_pass_min_rule
    (oneSettingCfg "PASS_MAX_DAYS" "45") (oneSettingCfg "PASS_MIN_DAYS" "7")
    "45" "60" "7" "1" 45 60 7 1
    rfl rfl (by decide) (by decide) (by decide)
    rfl rfl (by decide) (by decide) (by decide)
  ⟨h.1, h.2.1⟩

/-! ## C10 — audit job state machine -/

/-- Counterexample for C10: `update_status` is an unguarded setter, so
the operation `update_status(job, RUNNING)` — which the execution paths
issue without inspecting the current status — moves a COMPLETED
(terminal) job back to RUNNING.  The claim that no operation ever moves
a job out of a terminal state is therefore false. -/
theorem C10_counterexample :
    completedJob.status.isTerminal = true ∧
    update_status completedJob .RUNNING none =
      { status := .RUNNING, started_at := true, completed_at := true,
        error_message := none } ∧
    (update_status completedJob .RUNNING none).status.isTerminal = false := by
  refine ⟨rfl, rfl, rfl⟩

/-- C10 (amended): cancellation is correctly guarded — a missing job or
one in a terminal state is reported not cancellable with no state
change, and a PENDING/RUNNING job is moved to CANCELLED (with
`completed_at` stamped); the repository's `update_status` itself
enforces no transition discipline. -/
theorem C10_cancel_guard (j : AuditJobRec) :
    (j.status.isTerminal = true → cancel_audit (some j) = (false, some j)) ∧
    ((j.status = .PENDING ∨ j.status = .RUNNING) →
      cancel_audit (some j) =
        (true, some { j with status := .CANCELLED, completed_at := true,
                             error_message := none })) ∧
    cancel_audit none = (false, none) := by
  refine ⟨?_, ?_, rfl⟩
  · intro h
    have hg : (j.status == AuditStatus.PENDING || j.status == AuditStatus.RUNNING) = false := by
      cases hs : j.status <;> simp_all [AuditStatus.isTerminal]
    simp [cancel_audit, hg]
  · intro h
    unfold cancel_audit update_status
    rcases h with h | h <;> simp [h]

/-- Witness for C10: cancelling a PENDING job succeeds and moves it to
CANCELLED; cancelling a COMPLETED job is a no-op reported `false`. -/
theorem C10_cancel_guard_witness :
    cancel_audit (some pendingJob) =
      (true, some { pendingJob with
                    status := .CANCELLED, completed_at := true,
                    error_message := none }) ∧
    cancel_audit (some completedJob) = (false, some completedJob) :=
  ⟨(C10_cancel_guard pendingJob).2.1 (Or.inl rfl),
   (C10_cancel_guard completedJob).1 rfl⟩

/-! ## C1 — one result per rule -/

/-- A database-rule evaluation succeeds (with the resolved id) whenever
that id is within the pydantic bounds. -/
theorem evaluate_single_db_rule_eq (rule : DbRule) (config : ParsedConfig)
    (job : String)
    (h1 : 1 ≤ (rule.vuln_id.getD (rule.rule_id.getD "")).length)
    (h2 : (rule.vuln_id.getD (rule.rule_id.getD "")).length ≤ 100) :
    evaluate_single_db_rule rule config job =
      .ok ⟨job, rule.vuln_id.getD (rule.rule_id.getD ""),
        some (rule.title.getD ""),
        some (severityFromStr (rule.severity.getD "medium")),
        (db_rule_body rule config).1, some (db_rule_body rule config).2, none⟩ := by
  unfold evaluate_single_db_rule evaluate_single_db_rule_with
  exact mkAuditResult_ok _ _ _ _ _ _ h1 h2

/-- An XCCDF-rule evaluation succeeds (with `vuln_id` as the id)
whenever that id is within the pydantic bounds, for any outcome of the
`try` block. -/
theorem evaluate_single_xccdf_rule_with_ok (rule : XCCDFRule) (job : String)
    (body : Except String (CheckStatus × String))
    (h1 : 1 ≤ rule.vuln_id.length) (h2 : rule.vuln_id.length ≤ 100) :
    ∃ a, evaluate_single_xccdf_rule_with rule job body = .ok a ∧
      a.rule_id = rule.vuln_id := by
  unfold evaluate_single_xccdf_rule_with
  cases body with
  | ok pr => exact ⟨_, mkAuditResult_ok _ _ _ _ _ _ h1 h2, rfl⟩
  | error m => exact ⟨_, mkAuditResult_ok _ _ _ _ _ _ h1 h2, rfl⟩

/-- A built-in check run succeeds with the check's own rule id. -/
theorem run_check_eq (re : RegexO) (c : ConfigCheckRule)
    (config : ParsedConfig) (job : String)
    (h1 : 1 ≤ c.rule_id.length) (h2 : c.rule_id.length ≤ 100) :
    run_check re c config job =
      .ok ⟨job, c.rule_id, some c.title, some c.severity,
        (run_check_body re c config).1, some (run_check_body re c config).2,
        none⟩ := by
  unfold run_check run_check_with
  exact mkAuditResult_ok _ _ _ _ _ _ h1 h2

/-- Counterexample for C1: an XCCDF-sourced rule list may contain a rule
whose `vuln_id` is the defaulted empty string (a Group without an `id`
attribute, kept by the extractor).  Evaluating such a one-rule list does
not produce one result — the pydantic validation of the result record
raises and the evaluation returns no results at all. -/
theorem C1_counterexample :
    evaluate_xccdf_rules noMatchRe [emptyVulnIdRule] emptyAristaCfg "job-1" =
      Except.error "ValidationError: rule_id must have 1..100 characters, got ''" := by
  rfl

/-- C1 (amended): for every rule list whose rules carry a non-empty
resolved id of at most 100 characters — all built-in tables qualify, as
the last conjunct certifies — evaluation yields exactly one result per
input rule, each with a non-empty rule id and a status in the
five-element enum. -/
theorem C1_one_result_per_valid_rule
    (re : RegexO) (config : ParsedConfig) (job : String)
    (dbRules : List DbRule) (xRules : List XCCDFRule)
    (checks : List ConfigCheckRule)
    (hdb : ∀ r ∈ dbRules, 1 ≤ (r.vuln_id.getD (r.rule_id.getD "")).length ∧
        (r.vuln_id.getD (r.rule_id.getD "")).length ≤ 100)
    (hx : ∀ r ∈ xRules, 1 ≤ r.vuln_id.length ∧ r.vuln_id.length ≤ 100)
    (hc : ∀ c ∈ checks, 1 ≤ c.rule_id.length ∧ c.rule_id.length ≤ 100) :
    (∃ res, evaluate_db_rules dbRules config job = .ok res ∧
      res.length = dbRules.length ∧
      ∀ a ∈ res, a.rule_id ≠ "" ∧ a.status ∈ statusEnum) ∧
    (∃ res, evaluate_xccdf_rules re xRules config job = .ok res ∧
      res.length = xRules.length ∧
      ∀ a ∈ res, a.rule_id ≠ "" ∧ a.status ∈ statusEnum) ∧
    (∃ res, run_builtin_checks re checks config job = .ok res ∧
      res.length = checks.length ∧
      ∀ a ∈ res, a.rule_id ≠ "" ∧ a.status ∈ statusEnum) ∧
    (∀ p : Platform, ∀ c ∈ PLATFORM_CHECKS p,
      1 ≤ c.rule_id.length ∧ c.rule_id.length ≤ 100) := by
  refine ⟨?_, ?_, ?_, ?_⟩
  · obtain ⟨res, hres, hlen, hmem⟩ := collectE_ok
      (fun r => evaluate_single_db_rule r config job) dbRules
      (fun r hr => ⟨_, evaluate_single_db_rule_eq r config job (hdb r hr).1 (hdb r hr).2⟩)
    refine ⟨res, hres, hlen, ?_⟩
    intro a ha
    obtain ⟨r, hrl, hfa⟩ := hmem a ha
    rw [evaluate_single_db_rule_eq r config job (hdb r hrl).1 (hdb r hrl).2] at hfa
    have := Except.ok.inj hfa
    refine ⟨?_, statusEnum_mem a.status⟩
    rw [← this]
    exact ne_empty_of_len_pos (hdb r hrl).1
  · obtain ⟨res, hres, hlen, hmem⟩ := collectE_ok
      (fun r => evaluate_single_xccdf_rule re r config job) xRules
      (fun r hr => by
        obtain ⟨a, ha, -⟩ := evaluate_single_xccdf_rule_with_ok r job
          (.ok (xccdf_rule_body re r config)) (hx r hr).1 (hx r hr).2
        exact ⟨a, ha⟩)
    refine ⟨res, hres, hlen, ?_⟩
    intro a ha
    obtain ⟨r, hrl, hfa⟩ := hmem a ha
    obtain ⟨b, hb, hbid⟩ := evaluate_single_xccdf_rule_with_ok r job
      (.ok (xccdf_rule_body re r config)) (hx r hrl).1 (hx r hrl).2
    have hba : b = a := by
      have : Except.ok (ε := String) b = .ok a := by
        rw [← hb, ← hfa]
        rfl
      exact Except.ok.inj this
    refine ⟨?_, statusEnum_mem a.status⟩
    rw [← hba, hbid]
    exact ne_empty_of_len_pos (hx r hrl).1
  · obtain ⟨res, hres, hlen, hmem⟩ := collectE_ok
      (fun c => run_check re c config job) checks
      (fun c hcm => ⟨_, run_check_eq re c config job (hc c hcm).1 (hc c hcm).2⟩)
    refine ⟨res, hres, hlen, ?_⟩
    intro a ha
    obtain ⟨c, hcl, hfa⟩ := hmem a ha
    rw [run_check_eq re c config job (hc c hcl).1 (hc c hcl).2] at hfa
    have := Except.ok.inj hfa
    refine ⟨?_, statusEnum_mem a.status⟩
    rw [← this]
    exact ne_empty_of_len_pos (hc c hcl).1
  · intro p
    cases p <;> decide

/-- Witness for C1: the amended statement applied to a concrete
database rule list, XCCDF rule list and the Arista built-in table. -/
theorem C1_one_result_per_valid_rule_witness :
    (evaluate_db_rules [ntpDbRule] emptyAristaCfg "job").isOk = true ∧
    (run_builtin_checks noMatchRe ARISTA_CHECKS emptyAristaCfg "job").isOk = true := by
  obtain ⟨hdbpart, -, hbpart, -⟩ := C1_one_result_per_valid_rule noMatchRe
    emptyAristaCfg "job" [ntpDbRule] [ntpXccdfRule] ARISTA_CHECKS
    (by decide) (by decide) (by decide)
  obtain ⟨res, hres, -, -⟩ := hdbpart
  obtain ⟨res2, hres2, -, -⟩ := hbpart
  rw [hres, hres2]
  exact ⟨rfl, rfl⟩

/-! ## C2 — per-rule error containment -/

/-- Counterexample for C2: in a two-rule batch whose first rule has an
empty resolved id, the exception raised while building that rule's
result record propagates out of the per-rule evaluation (it is raised
after the `try/except`), so no ERROR result is yielded for it and the
second rule's result is never produced: the whole evaluation returns
the exception instead of a result list. -/
theorem C2_counterexample :
    evaluate_xccdf_rules noMatchRe [emptyVulnIdRule, ntpXccdfRule]
      emptyAristaCfg "job-2" =
      Except.error "ValidationError: rule_id must have 1..100 characters, got ''" := by
  rfl

/-- C2 (amended): an exception raised inside a rule's `try` block — on
any of the three evaluation paths — is caught and becomes an ERROR
result whose finding details carry the exception message, and a batch
in which every rule has a valid id completes with one result per rule
no matter which rules' bodies raise; only a failure of the result
record's own validation (empty rule id) escapes this containment. -/
theorem C2_per_rule_errors_contained
    (rule : XCCDFRule) (drule : DbRule) (c : ConfigCheckRule)
    (job msg : String)
    (hx1 : 1 ≤ rule.vuln_id.length) (hx2 : rule.vuln_id.length ≤ 100)
    (hd1 : 1 ≤ (drule.vuln_id.getD (drule.rule_id.getD "")).length)
    (hd2 : (drule.vuln_id.getD (drule.rule_id.getD "")).length ≤ 100)
    (hc1 : 1 ≤ c.rule_id.length) (hc2 : c.rule_id.length ≤ 100) :
    (evaluate_single_xccdf_rule_with rule job (.error msg) =
      .ok ⟨job, rule.vuln_id, some rule.title,
        some (severityFromStr rule.severity), .ERROR,
        some ("Error evaluating rule: " ++ msg), none⟩) ∧
    (evaluate_single_db_rule_with drule job (.error msg) =
      .ok ⟨job, drule.vuln_id.getD (drule.rule_id.getD ""),
        some (drule.title.getD ""),
        some (severityFromStr (drule.severity.getD "medium")), .ERROR,
        some ("Error evaluating rule: " ++ msg), none⟩) ∧
    (run_check_with c job (.error msg) =
      .ok ⟨job, c.rule_id, some c.title, some c.severity, .ERROR,
        some ("Error during check: " ++ msg), none⟩) ∧
    (∀ (rules : List XCCDFRule)
        (body : XCCDFRule → Except String (CheckStatus × String)),
      (∀ r ∈ rules, 1 ≤ r.vuln_id.length ∧ r.vuln_id.length ≤ 100) →
      ∃ res, collectE (fun r => evaluate_single_xccdf_rule_with r job (body r))
          rules = .ok res ∧ res.length = rules.length) := by
  refine ⟨?_, ?_, ?_, ?_⟩
  · unfold evaluate_single_xccdf_rule_with
    exact mkAuditResult_ok _ _ _ _ _ _ hx1 hx2
  · unfold evaluate_single_db_rule_with
    exact mkAuditResult_ok _ _ _ _ _ _ hd1 hd2
  · unfold run_check_with
    exact mkAuditResult_ok _ _ _ _ _ _ hc1 hc2
  · intro rules body h
    obtain ⟨res, hres, hlen, -⟩ := collectE_ok
      (fun r => evaluate_single_xccdf_rule_with r job (body r)) rules
      (fun r hr => by
        obtain ⟨a, ha, -⟩ := evaluate_single_xccdf_rule_with_ok r job (body r)
          (h r hr).1 (h r hr).2
        exact ⟨a, ha⟩)
    exact ⟨res, hres, hlen⟩

/-- Witness for C2: a raising body on a concrete rule yields the ERROR
result, and a two-rule batch whose first body raises still completes
with two results. -/
theorem C2_per_rule_errors_contained_witness :
    (evaluate_single_xccdf_rule_with ntpXccdfRule "job" (.error "boom") =
      .ok ⟨"job", ntpXccdfRule.vuln_id, some ntpXccdfRule.title,
        some (severityFromStr ntpXccdfRule.severity), .ERROR,
        some ("Error evaluating rule: " ++ "boom"), none⟩) ∧
    (∃ res, collectE (fun r => evaluate_single_xccdf_rule_with r "job"
        (Except.error "boom"))
        [ntpXccdfRule, ntpXccdfRule] = .ok res ∧
      res.length = [ntpXccdfRule, ntpXccdfRule].length) := by
  have h := C2_per_rule_errors_contained ntpXccdfRule ntpDbRule
    rhel_pass_max_rule "job" "boom"
    (by decide) (by decide) (by decide) (by decide) (by decide) (by decide)
  refine ⟨h.1, ?_⟩
  exact h.2.2.2 [ntpXccdfRule, ntpXccdfRule] (fun _ => Except.error "boom") (by decide)

/-! ## C4 — heuristic keyword priority -/

/-- Counterexample for C4: a database rule whose check text is `aaa`
(and matches no earlier keyword) is NOT handled by the AAA domain check
the claim prescribes — the database path has no `aaa` branch, so the
result is NOT_REVIEWED "Manual review required", while the AAA domain
check (and the XCCDF path on the identical check text) yields FAIL
"AAA not configured" on the same configuration. -/
theorem C4_counterexample :
    evaluate_single_db_rule aaaDbRule emptyAristaCfg "job-4" =
      .ok ⟨"job-4", "V-1", some "", some .MEDIUM, .NOT_REVIEWED,
        some "Manual review required", none⟩ ∧
    aaaBranch emptyAristaCfg = (.FAIL, "AAA not configured") ∧
    evaluate_single_xccdf_rule noMatchRe aaaXccdfRule emptyAristaCfg "job-4" =
      .ok ⟨"job-4", "V-3", some "", some .MEDIUM, .FAIL,
        some "AAA not configured", none⟩ := by
  refine ⟨?_, rfl, ?_⟩ <;> rfl

/-- C4 (amended): both heuristic evaluators realize a first-match
keyword table.  The XCCDF path follows the order
ssh → ntp → syslog → snmp → aaa → banner with the generic
quoted-literal/grep-pattern fallback and the manual-review default.
The database path follows ssh → ntp → syslog → snmp → banner — with NO
aaa entry and NO generic-pattern fallback — and defaults to
NOT_REVIEWED "Manual review required". -/
theorem C4_keyword_priority_order (re : RegexO) (rule : XCCDFRule)
    (drule : DbRule) (config : ParsedConfig) :
    xccdf_rule_body re rule config = xccdf_dispatch_table re rule config ∧
    db_rule_body drule config = db_dispatch_table drule config := by
  constructor <;> rfl

/-! ## C5 — XCCDF rule extraction -/

/-- Counterexample for C5: a Group (id `V-1`) whose Rule element lacks
an `id` attribute is NOT dropped — the extracted rule list contains a
rule whose rule id is the defaulted empty string. -/
theorem C5_counterexample :
    (extract_rules benchNoRuleId).map XCCDFRule.rule_id = [""] ∧
    (extract_rules benchNoRuleId).map XCCDFRule.vuln_id = ["V-1"] := by
  refine ⟨rfl, rfl⟩

/-- Each group with a Rule child yields exactly one extracted rule. -/
theorem extract_len_aux (l : List Elem) :
    (l.filterMap (fun g => (g.findChild "Rule").map
      (extract_one_rule (g.attr "id" "")))).length =
      (l.filter (fun g => (g.findChild "Rule").isSome)).length := by
  induction l with
  | nil => rfl
  | cons x xs ih =>
    cases hx : x.findChild "Rule" <;>
      simp [List.filterMap_cons, List.filter_cons, hx, ih]

/-- C5 (amended): extraction keeps exactly the descendant Group
elements that have a direct Rule child (a Group without a Rule child is
dropped), one rule per such Group; a missing rule `id` attribute is
defaulted to the empty string, not dropped. -/
theorem C5_group_rule_extraction (root : Elem) :
    (extract_rules root).length =
      ((root.descendants.filter (fun g => g.tag == "Group")).filter
        (fun g => (g.findChild "Rule").isSome)).length ∧
    ∀ r ∈ extract_rules root, ∃ g, g ∈ root.descendants ∧ g.tag = "Group" ∧
      ∃ rl, g.findChild "Rule" = some rl ∧
        r = extract_one_rule (g.attr "id" "") rl := by
  constructor
  · unfold extract_rules
    exact extract_len_aux _
  · intro r hr
    unfold extract_rules at hr
    obtain ⟨g, hg, hfg⟩ := List.mem_filterMap.mp hr
    obtain ⟨rl, hrl, hmap⟩ := Option.map_eq_some'.mp hfg
    have hgm := List.mem_filter.mp hg
    exact ⟨g, hgm.1, by simpa using hgm.2, rl, hrl, hmap.symm⟩

/-- Witness for C5: the amended statement applied to the concrete
benchmark document with a single Group/Rule pair. -/
theorem C5_group_rule_extraction_witness :
    (extract_rules benchNoRuleId).length =
      ((benchNoRuleId.descendants.filter (fun g => g.tag == "Group")).filter
        (fun g => (g.findChild "Rule").isSome)).length :=
  (C5_group_rule_extraction benchNoRuleId).1

/-! ## C6 — pfSense parse totality -/

/-- Each walk step changes neither the platform nor the retained raw
content. -/
theorem pfStep_preserves (c : ParsedConfig) (root : Elem) :
    ((pfSystemStep c root).platform = c.platform ∧
      (pfSystemStep c root).raw_content = c.raw_content) ∧
    ((pfIfacesStep c root).platform = c.platform ∧
      (pfIfacesStep c root).raw_content = c.raw_content) ∧
    ((pfFilterStep c root).platform = c.platform ∧
      (pfFilterStep c root).raw_content = c.raw_content) ∧
    ((pfUsersStep c root).platform = c.platform ∧
      (pfUsersStep c root).raw_content = c.raw_content) ∧
    ((pfSyslogStep c root).platform = c.platform ∧
      (pfSyslogStep c root).raw_content = c.raw_content) ∧
    ((pfSnmpStep c root).platform = c.platform ∧
      (pfSnmpStep c root).raw_content = c.raw_content) := by
  refine ⟨?_, ?_, ?_, ?_, ?_, ?_⟩
  · unfold pfSystemStep
    repeat' (first | split | dsimp only)
    all_goals exact ⟨rfl, rfl⟩
  · unfold pfIfacesStep
    repeat' (first | split | dsimp only)
    all_goals exact ⟨rfl, rfl⟩
  · unfold pfFilterStep
    repeat' (first | split | dsimp only)
    all_goals exact ⟨rfl, rfl⟩
  · unfold pfUsersStep
    repeat' (first | split | dsimp only)
    all_goals exact ⟨rfl, rfl⟩
  · unfold pfSyslogStep
    repeat' (first | split | dsimp only)
    all_goals exact ⟨rfl, rfl⟩
  · unfold pfSnmpStep
    repeat' (first | split | dsimp only)
    all_goals exact ⟨rfl, rfl⟩

/-- The tree walk never changes the platform or the retained raw
content. -/
theorem pfsense_walk_preserves (base : ParsedConfig) (root : Elem) :
    (pfsense_walk base root).platform = base.platform ∧
    (pfsense_walk base root).raw_content = base.raw_content := by
  unfold pfsense_walk
  constructor
  · rw [(pfStep_preserves _ root).2.2.2.2.2.1, (pfStep_preserves _ root).2.2.2.2.1.1,
      (pfStep_preserves _ root).2.2.2.1.1, (pfStep_preserves _ root).2.2.1.1,
      (pfStep_preserves _ root).2.1.1, (pfStep_preserves _ root).1.1]
  · rw [(pfStep_preserves _ root).2.2.2.2.2.2, (pfStep_preserves _ root).2.2.2.2.1.2,
      (pfStep_preserves _ root).2.2.2.1.2, (pfStep_preserves _ root).2.2.1.2,
      (pfStep_preserves _ root).2.1.2, (pfStep_preserves _ root).1.2]

/-- Counterexample for C6: a pfSense configuration upload containing an
inline XML entity declaration makes the hardened `fromstring` raise
`defusedxml.EntitiesForbidden`, which is a `ValueError` and not the
`ET.ParseError` the parser catches — so `parse` raises instead of
returning a ParsedConfig. -/
theorem C6_counterexample :
    (pfsense_parse defaultSettings entityPfContent .entitiesForbidden).1 =
      Except.error "defusedxml.EntitiesForbidden" := by
  rfl

/-- C6 (amended): for every settings/input/parse-outcome triple, the
pfSense parser returns a ParsedConfig — carrying the pfSense platform
and the raw content, with every list/dict field present (the record
type guarantees non-null) — in all cases except exactly one: a
within-size-limit input on which the hardened XML layer raises its
security rejection, which propagates out of `parse`. -/
theorem C6_parse_outcomes (s : Settings) (content : String) (fs : FromStr) :
    (∃ cfg, (pfsense_parse s content fs).1 = .ok cfg ∧
      cfg.platform = .PFSENSE ∧ cfg.raw_content = content) ∨
    ((pfsense_parse s content fs).1 = .error "defusedxml.EntitiesForbidden" ∧
      fs = .entitiesForbidden ∧ content.utf8ByteSize ≤ s.max_xml_size) := by
  unfold pfsense_parse
  by_cases h : content.utf8ByteSize > s.max_xml_size
  · left
    refine ⟨{ platform := .PFSENSE, raw_content := content }, ?_, rfl, rfl⟩
    simp [h]
  · cases fs with
    | ok root =>
      left
      refine ⟨pfsense_walk { platform := .PFSENSE, raw_content := content } root,
        ?_, ?_, ?_⟩
      · simp [h]
      · exact (pfsense_walk_preserves _ root).1
      · exact (pfsense_walk_preserves _ root).2
    | parseError m =>
      left
      refine ⟨{ platform := .PFSENSE, raw_content := content }, ?_, rfl, rfl⟩
      simp [h]
    | entitiesForbidden =>
      right
      exact ⟨by simp [h], rfl, Nat.le_of_not_lt h⟩

/-! ## C7 — extraction resource limits -/

/-- Counterexample for C7: an honest single-entry ZIP whose XCCDF entry
is 50 MB + 1 byte passes the entry-count and entry-size checks
(limit 100 MB), is then READ, and only afterwards does the raw-XML-size
check (limit 50 MB) run and reject it — so not every limit is checked
before entry content is read.  The result is still empty and the
content is never parsed. -/
theorem C7_counterexample :
    parse_zip defaultSettings oversizedXmlZip =
      ((none, []), [.checkedEntryCount, .checkedEntrySize, .readEntry,
        .checkedXmlSize]) ∧
    checkAfterRead (parse_zip defaultSettings oversizedXmlZip).2 = true ∧
    ZEvent.parsedXml ∉ (parse_zip defaultSettings oversizedXmlZip).2 := by
  refine ⟨rfl, rfl, by decide⟩

/-- C7 (amended): no limit check ever follows a parse call; a ZIP with
too many entries is rejected before any entry is read or parsed; an
entry over the per-entry size limit is rejected before being read; an
entry within the per-entry limit whose bytes exceed the raw-XML limit
is read first and then rejected before any parse, with an empty result;
and an oversized pfSense upload is returned unparsed.  (Only the
raw-XML byte-size check runs after a read, which the counterexample
shows is unavoidable in the implementation.) -/
theorem C7_limit_checks (s : Settings) (zip : Option (List ZipEntry))
    (entries : List ZipEntry) (e : ZipEntry) (content : String)
    (fs : FromStr) :
    checkAfterParse (parse_zip s zip).2 = false ∧
    (zip = some entries → entries.length > s.max_zip_entries →
      parse_zip s zip = ((none, []), [.checkedEntryCount])) ∧
    (zip = some entries → ¬(entries.length > s.max_zip_entries) →
      entries.find? (fun t => isXccdfName t.name) = some e →
      e.file_size > s.max_zip_entry_size →
      parse_zip s zip = ((none, []), [.checkedEntryCount, .checkedEntrySize])) ∧
    (zip = some entries → ¬(entries.length > s.max_zip_entries) →
      entries.find? (fun t => isXccdfName t.name) = some e →
      ¬(e.file_size > s.max_zip_entry_size) →
      e.content.len > s.max_xml_size →
      parse_zip s zip = ((none, []), [.checkedEntryCount, .checkedEntrySize,
        .readEntry, .checkedXmlSize])) ∧
    (content.utf8ByteSize > s.max_xml_size →
      pfsense_parse s content fs =
        (.ok { platform := .PFSENSE, raw_content := content },
         [.checkedXmlSize])) := by
  refine ⟨?_, ?_, ?_, ?_, ?_⟩
  · unfold parse_zip parse_xccdf_content
    repeat' (first | split | dsimp only)
    all_goals rfl
  · intro hz hc
    subst hz
    simp [parse_zip, hc]
  · intro hz hc hf hs
    subst hz
    simp [parse_zip, hc, hf, hs]
  · intro hz hc hf hs hx
    subst hz
    simp [parse_zip, parse_xccdf_content, hc, hf, hs, hx]
  · intro h
    simp [pfsense_parse, h]

/-- Witness for C7: a 501-entry ZIP is rejected at the entry-count
check with an empty result and no further events. -/
theorem C7_limit_checks_witness :
    parse_zip defaultSettings
      (some (List.replicate 501 ⟨"a.xml", 10, ⟨10, .parseError "x"⟩⟩)) =
      ((none, []), [.checkedEntryCount]) :=
  (C7_limit_checks defaultSettings
      (some (List.replicate 501 ⟨"a.xml", 10, ⟨10, .parseError "x"⟩⟩))
      (List.replicate 501 ⟨"a.xml", 10, ⟨10, .parseError "x"⟩⟩)
      ⟨"a.xml", 10, ⟨10, .parseError "x"⟩⟩ "" (.parseError "x")).2.1
    rfl (by decide)

/-! ## C3 — rule source priority -/

/-- Counterexample for C3: on a non-Juniper platform with a non-empty
database rule set, the produced results are NOT derived from the
database rules alone — the ten built-in Arista checks run first and
their results precede the single database result, so the built-in
platform rule table is used even though the database source is
non-empty. -/
theorem C3_counterexample :
    (analyze_config noMatchRe (.ok emptyAristaCfg) (fun _ => .ok [])
        (fun _ => []) .ARISTA_EOS none "job-3" none (some [ntpDbRule])).map
      (List.map AuditResultCreate.rule_id) =
      .ok ["ARST-L2-000010", "ARST-L2-000020", "ARST-L2-000030",
        "ARST-L2-000040", "ARST-L2-000050", "ARST-L2-000060",
        "ARST-ND-000010", "ARST-ND-000020", "ARST-ND-000030",
        "ARST-ND-000040", "V-100"] := by
  rfl

/-- C3 (amended): database rules do take precedence over the XCCDF
library on every path — when the database rule set is non-empty the
analysis result does not depend on the XCCDF library at all — and on the
Juniper path the full priority holds exclusively (database, else XCCDF,
else built-ins).  On non-Juniper platforms, however, the built-in
platform checks always run first and the database (or XCCDF) results
are appended after them. -/
theorem C3_rule_source_priority
    (re : RegexO) (parseO : Except String ParsedConfig)
    (junA : List DbRule → Except String (List AuditResultCreate))
    (lib lib2 : String → List XCCDFRule) (platform : Platform)
    (definition : Option STIGDefinition) (job : String)
    (benchmark_id : Option String) (db_rules : Option (List DbRule))
    (config : ParsedConfig) (bres dres : List AuditResultCreate) :
    (dbRulesTruthy db_rules = true →
      analyze_config re parseO junA lib platform definition job
        benchmark_id db_rules =
      analyze_config re parseO junA lib2 platform definition job
        benchmark_id db_rules) ∧
    (dbRulesTruthy db_rules = true →
      juniper_rules_to_check platform db_rules lib benchmark_id definition =
        db_rules.getD []) ∧
    (dbRulesTruthy db_rules = false →
      xccdfLookupRules lib benchmark_id definition ≠ [] →
      juniper_rules_to_check platform db_rules lib benchmark_id definition =
        (xccdfLookupRules lib benchmark_id definition).map xccdfToDbRule) ∧
    (dbRulesTruthy db_rules = false →
      xccdfLookupRules lib benchmark_id definition = [] →
      juniper_rules_to_check platform db_rules lib benchmark_id definition =
        (PLATFORM_CHECKS platform).map builtinToDbRule) ∧
    ((platform == Platform.JUNIPER_JUNOS || platform == Platform.JUNIPER_SRX) = false →
      parseO = .ok config →
      dbRulesTruthy db_rules = true →
      run_builtin_checks re (PLATFORM_CHECKS platform) config job = .ok bres →
      evaluate_db_rules (db_rules.getD []) config job = .ok dres →
      analyze_config re parseO junA lib platform definition job
        benchmark_id db_rules = .ok (bres ++ dres)) := by
  have hjun : ∀ l : String → List XCCDFRule, dbRulesTruthy db_rules = true →
      juniper_rules_to_check platform db_rules l benchmark_id definition =
        db_rules.getD [] := by
    intro l h
    cases db_rules with
    | none => simp [dbRulesTruthy] at h
    | some rules =>
      have hne : rules.isEmpty = false := by
        simpa [dbRulesTruthy] using h
      simp [juniper_rules_to_check, dbRulesTruthy, hne]
  refine ⟨?_, hjun lib, ?_, ?_, ?_⟩
  · intro h
    unfold analyze_config
    by_cases hp : (platform == Platform.JUNIPER_JUNOS ||
        platform == Platform.JUNIPER_SRX) = true
    · rw [if_pos hp, if_pos hp, hjun lib h, hjun lib2 h]
    · rw [if_neg hp, if_neg hp]
      cases parseO with
      | error e => rfl
      | ok cfg =>
        simp only []
        cases hrb : run_builtin_checks re (PLATFORM_CHECKS platform) cfg job with
        | error e =>
          simp [PARSERS_has, hrb]
          rfl
        | ok builtin => simp [hrb, h]
  · intro h hx
    cases db_rules with
    | none => simp [juniper_rules_to_check, dbRulesTruthy, hx]
    | some rules =>
      have he : rules.isEmpty = true := by
        simpa [dbRulesTruthy] using h
      simp [juniper_rules_to_check, dbRulesTruthy, he, hx]
  · intro h hx
    cases db_rules with
    | none => simp [juniper_rules_to_check, dbRulesTruthy, hx]
    | some rules =>
      have he : rules.isEmpty = true := by
        simpa [dbRulesTruthy] using h
      simp [juniper_rules_to_check, dbRulesTruthy, he, hx]
  · intro hp hparse hdb hrb hdr
    subst hparse
    unfold analyze_config
    rw [if_neg (by simp [hp])]
    simp [PARSERS_has, hrb, hdb, hdr]
    rfl

/-- Witness for C3: with a non-empty database rule list, the analysis
outcome is identical under two different XCCDF libraries (one empty,
one non-empty), and the Juniper rule collection returns exactly the
database rules. -/
theorem C3_rule_source_priority_witness :
    (analyze_config noMatchRe (.ok emptyAristaCfg) (fun _ => .ok [])
        (fun _ => []) .ARISTA_EOS none "job" none (some [ntpDbRule]) =
      analyze_config noMatchRe (.ok emptyAristaCfg) (fun _ => .ok [])
        (fun _ => [ntpXccdfRule]) .ARISTA_EOS none "job" none
        (some [ntpDbRule])) ∧
    juniper_rules_to_check .JUNIPER_JUNOS (some [ntpDbRule])
      (fun _ => [ntpXccdfRule]) none none = [ntpDbRule] := by
  have h := C3_rule_source_priority noMatchRe (.ok emptyAristaCfg)
    (fun _ => .ok []) (fun _ => []) (fun _ => [ntpXccdfRule]) .ARISTA_EOS
    none "job" none (some [ntpDbRule]) emptyAristaCfg [] []
  have h2 := C3_rule_source_priority noMatchRe (.ok emptyAristaCfg)
    (fun _ => .ok []) (fun _ => [ntpXccdfRule]) (fun _ => [ntpXccdfRule])
    .JUNIPER_JUNOS none "job" none (some [ntpDbRule]) emptyAristaCfg [] []
  exact ⟨h.1 rfl, h2.2.1 rfl⟩
